import Mathlib

/-! # TPC-C consistency check of go-tpc (`tpcc/check.go`)

A shallow embedding of `Workloader.Check` and of the twelve `checkConditionN`
methods, followed by the properties proved about them.

Modelling conventions.

* Go `int` is the 64-bit signed integer (as on 64-bit platforms): values are
  integers (`Int`), `%` is Go's truncated remainder (`Int.tmod`), and the two
  additions of the outer loop of `Check` wrap around (`wrapInt`).
* A Go `error` is its message (`String`); `nil` is `none`.
* The database connection, `getState` and the `%f` verb of package `fmt` live
  outside `check.go`; they are fields of `Workloader`.
* A result cursor (`*sql.Rows`) is the list of its rows, each either the
  `float64` that `Scan` stores or the error `Scan` returns, together with the
  value of `rows.Err()`.
-/

namespace Tpcc

/-- An IEEE 754 binary64 value (Go `float64`), given by its three bit fields. -/
structure Float64 where
  sign : Bool
  exponent : Fin 2048
  mantissa : Fin (2 ^ 52)
deriving DecidableEq, Repr

namespace Float64

/-- Not-a-number: all exponent bits set and a non-zero fraction. -/
def isNaN (x : Float64) : Bool :=
  x.exponent.val == 2047 && x.mantissa.val != 0

/-- Plus or minus infinity. -/
def isInf (x : Float64) : Bool :=
  x.exponent.val == 2047 && x.mantissa.val == 0

/-- Plus or minus zero. -/
def isZero (x : Float64) : Bool :=
  x.exponent.val == 0 && x.mantissa.val == 0

/-- The constant `0` of the comparisons `diff != 0`. -/
def zero : Float64 := ⟨false, 0, 0⟩

/-- Go `x == y` on `float64`: false when either side is NaN, the two zeros are
equal, otherwise equality of the bit patterns. -/
def eq (x y : Float64) : Bool :=
  !x.isNaN && !y.isNaN && ((x.isZero && y.isZero) || decide (x = y))

/-- Go `x != y` on `float64`. -/
def ne (x y : Float64) : Bool := !(eq x y)

/-- The rational number a finite value denotes; `none` for NaN and the
infinities. -/
def toRat? (x : Float64) : Option ℚ :=
  if x.exponent.val = 2047 then none
  else
    let s : ℚ := if x.sign then -1 else 1
    if x.exponent.val = 0 then
      some (s * (x.mantissa.val : ℚ) / 2 ^ 1074)
    else
      some (s * ((2 ^ 52 + x.mantissa.val : ℕ) : ℚ) * 2 ^ x.exponent.val / 2 ^ 1075)

end Float64

/-- The `context.Context` handed to `Check`: what `ctx.Err()` reports, `none`
until the context is cancelled or its deadline passes. -/
structure Context where
  err : Option String
deriving DecidableEq, Repr

/-- Whether the cancellation signal of the context has fired. -/
def Context.cancelled (ctx : Context) : Bool := ctx.err.isSome

/-- A result cursor: its rows in order, each the outcome of `rows.Scan(&diff)`,
and the outcome of `rows.Err()` once `rows.Next()` has returned false. -/
structure Rows where
  rows : List (Except String Float64)
  err : Option String

/-- The connection of the per-thread state; `QueryContext ctx query args`. -/
structure Conn where
  QueryContext : Context → String → List Int → Except String Rows

/-- The per-thread state returned by `getState`. -/
structure TpccState where
  Conn : Conn

/-- The fields `cfg.Threads` and `cfg.Warehouses`. -/
structure Config where
  Threads : Int
  Warehouses : Int
deriving DecidableEq, Repr

/-- The receiver of `Check`, with the collaborators that are not part of
`check.go`: `getState`, and the rendering of a `float64` by the `%f` verb. -/
structure Workloader where
  cfg : Config
  getState : Context → TpccState
  fmtF : Float64 → String

/-- The `%d` verb on an `int`. -/
def fmtD (n : Int) : String := toString n

/-- The loop shared by the twelve checks:
`for rows.Next() { Scan; if diff != 0 { return Errorf(...) } }; return rows.Err()`. -/
def scanRows (violation : Float64 → String) :
    List (Except String Float64) → Option String → Option String
  | [], err => err
  | Except.error e :: _, _ => some e
  | Except.ok diff :: rest, err =>
    if Float64.ne diff Float64.zero then some (violation diff)
    else scanRows violation rest err

/-- The part common to the twelve checks after the query text, the bound
arguments and the violation message are fixed: run the query, wrap an
execution error, otherwise scan the rows. -/
def runCheck (w : Workloader) (ctx : Context) (query : String) (args : List Int)
    (violation : Float64 → String) : Option String :=
  let s := w.getState ctx
  match s.Conn.QueryContext ctx query args with
  | Except.error err => some ("Exec " ++ query ++ " failed " ++ err)
  | Except.ok rows => scanRows violation rows.rows rows.err

/-- Query text of `checkCondition1`. -/
def query1 : String :=
  "SELECT sum(d_ytd) - max(w_ytd) diff FROM district, warehouse WHERE d_w_id = w_id AND w_id = ? group by d_w_id"

/-- Query text of `checkCondition2`. -/
def query2 : String :=
  "SELECT POWER((d_next_o_id -1 - mo), 2) + POWER((d_next_o_id -1 - mno), 2) diff FROM district dis, (SELECT o_d_id,max(o_id) mo FROM orders WHERE o_w_id= ? GROUP BY o_d_id) q, (select no_d_id,max(no_o_id) mno from new_order where no_w_id= ? group by no_d_id) no where d_w_id = ? and q.o_d_id=dis.d_id and no.no_d_id=dis.d_id"

/-- Query text of `checkCondition3`. -/
def query3 : String :=
  "SELECT max(no_o_id)-min(no_o_id)+1 - count(*) diff from new_order where no_w_id = ? group by no_d_id"

/-- Query text of `checkCondition4`. -/
def query4 : String :=
  "SELECT count(*) FROM (SELECT o_d_id, SUM(o_ol_cnt) sm1, MAX(cn) as cn FROM orders,(SELECT ol_d_id, COUNT(*) cn FROM order_line WHERE ol_w_id = ? GROUP BY ol_d_id) ol WHERE o_w_id = ? AND ol_d_id=o_d_id GROUP BY o_d_id) t1 WHERE sm1<>cn"

/-- Query text of `checkCondition5`. -/
def query5 : String :=
  "SELECT count(*)  FROM orders LEFT JOIN new_order ON (no_w_id=o_w_id AND o_d_id=no_d_id AND o_id=no_o_id) where o_w_id = ? and ((o_carrier_id IS NULL and no_o_id IS  NULL) OR (o_carrier_id IS NOT NULL and no_o_id IS NOT NULL  )) "

/-- Query text of `checkCondition6`. -/
def query6 : String :=
  "\nSELECT COUNT(*) FROM\n(SELECT o_ol_cnt, order_line_count FROM orders\n\tJOIN (SELECT ol_w_id, ol_d_id, ol_o_id, count(*) order_line_count FROM order_line GROUP BY ol_w_id, ol_d_id, ol_o_id ORDER by ol_w_id, ol_d_id, ol_o_id) AS order_line\n\tON orders.o_w_id = order_line.ol_w_id AND orders.o_d_id = order_line.ol_d_id AND orders.o_id = order_line.ol_o_id\n\tWHERE orders.o_w_id = ?) AS T\nWHERE T.o_ol_cnt != T.order_line_count"

/-- Query text of `checkCondition7`. -/
def query7 : String :=
  "SELECT count(*) FROM orders, order_line WHERE o_id=ol_o_id AND o_d_id=ol_d_id AND ol_w_id=o_w_id AND o_w_id = ? AND ((ol_delivery_d IS NULL and o_carrier_id IS NOT NULL) or (o_carrier_id IS NULL and ol_delivery_d IS NOT NULL ))"

/-- Query text of `checkCondition8`. -/
def query8 : String :=
  "SELECT count(*) cn FROM (SELECT w_id,w_ytd,SUM(h_amount) sm FROM history,warehouse WHERE h_w_id=w_id and w_id = ? GROUP BY w_id) t1 WHERE w_ytd<>sm"

/-- Query text of `checkCondition9`. -/
def query9 : String :=
  "SELECT COUNT(*) FROM (select d_id,d_w_id,sum(d_ytd) s1 from district group by d_id,d_w_id) d,(select h_d_id,h_w_id,sum(h_amount) s2 from history WHERE  h_w_id = ? group by h_d_id, h_w_id) h WHERE h_d_id=d_id AND d_w_id=h_w_id and d_w_id= ? and s1<>s2"

/-- Query text of `checkCondition10`. -/
def query10 : String :=
  "SELECT count(*) \n\tFROM (  SELECT  c.c_id, c.c_d_id, c.c_w_id, c.c_balance c1, \n\t\t\t\t   (SELECT sum(ol_amount) FROM orders STRAIGHT_JOIN order_line \n\t\t\t\t\t WHERE OL_W_ID=O_W_ID \n\t\t\t\t\t   AND OL_D_ID = O_D_ID \n\t\t\t\t\t   AND OL_O_ID = O_ID \n\t\t\t\t\t   AND OL_DELIVERY_D IS NOT NULL \n\t\t\t\t\t   AND O_W_ID=c.c_w_id \n\t\t\t\t\t   AND O_D_ID=c.C_D_ID \n\t\t\t\t\t   AND O_C_ID=c.C_ID) sm, (SELECT  sum(h_amount)  from  history \n\t\t\t\t\t\t\t\t\t\t\t\tWHERE H_C_W_ID=c.C_W_ID \n\t\t\t\t\t\t\t\t\t\t\t\t  AND H_C_D_ID=c.C_D_ID \n\t\t\t\t\t\t\t\t\t\t\t\t  AND H_C_ID=c.C_ID) smh \n\t\t\t FROM customer c \n\t\t\tWHERE  c.c_w_id = ? ) t\n   WHERE c1<>sm-smh"

/-- Query text of `checkCondition11`. -/
def query11 : String :=
  "\nSELECT count(*) FROM\n\t(SELECT * FROM\n\t\t(SELECT o_w_id, o_d_id, count(*) order_count FROM orders GROUP BY o_w_id, o_d_id) orders\n        JOIN (SELECT no_w_id, no_d_id, count(*) new_order_count FROM new_order GROUP BY no_w_id, no_d_id) new_order\n        ON orders.o_w_id = new_order.no_w_id AND orders.o_d_id = new_order.no_d_id\n\t) order_new_order\nJOIN (SELECT c_w_id, c_d_id, count(*) customer_count FROM customer GROUP BY c_w_id, c_d_id) customer\nON order_new_order.no_w_id = customer.c_w_id AND order_new_order.no_d_id = customer.c_d_id\nWHERE c_w_id = ? AND order_count - 2100 != new_order_count"

/-- Query text of `checkCondition12`. -/
def query12 : String :=
  "SELECT count(*) FROM (SELECT  c.c_id, c.c_d_id, c.c_balance c1, c_ytd_payment, \n\t\t(SELECT sum(ol_amount) FROM orders STRAIGHT_JOIN order_line \n\t\tWHERE OL_W_ID=O_W_ID AND OL_D_ID = O_D_ID AND OL_O_ID = O_ID AND OL_DELIVERY_D IS NOT NULL AND \n\t\tO_W_ID=c.c_w_id AND O_D_ID=c.C_D_ID AND O_C_ID=c.C_ID) sm FROM customer c WHERE  c.c_w_id = ?) t1 \n\t\tWHERE c1+c_ytd_payment <> sm"

/-- Violation message of `checkCondition1`. -/
def violation1 (w : Workloader) (warehouse : Int) (diff : Float64) : String :=
  "sum(d_ytd) - max(w_ytd) should be 0 in warehouse " ++ fmtD warehouse ++ ", but got " ++ w.fmtF diff

/-- Violation message of `checkCondition2`. -/
def violation2 (w : Workloader) (warehouse : Int) (diff : Float64) : String :=
  "POWER((d_next_o_id -1 - mo), 2) + POWER((d_next_o_id -1 - mno),2) != 0 in warehouse " ++ fmtD warehouse ++ ", but got " ++ w.fmtF diff

/-- Violation message of `checkCondition3`. -/
def violation3 (w : Workloader) (warehouse : Int) (diff : Float64) : String :=
  "max(no_o_id)-min(no_o_id)+1 - count(*) in warehouse " ++ fmtD warehouse ++ ", but got " ++ w.fmtF diff

/-- Violation message of `checkCondition4`. -/
def violation4 (w : Workloader) (warehouse : Int) (diff : Float64) : String :=
  "count(*) in warehouse " ++ fmtD warehouse ++ ", but got " ++ w.fmtF diff

/-- Violation message of `checkCondition5`. -/
def violation5 (w : Workloader) (warehouse : Int) (diff : Float64) : String :=
  "count(*) in warehouse " ++ fmtD warehouse ++ ", but got " ++ w.fmtF diff

/-- Violation message of `checkCondition6`; the scanned value is not part of it. -/
def violation6 (_w : Workloader) (warehouse : Int) (_count : Float64) : String :=
  "all of O_OL_CNT - count(order_line) for the corresponding order defined by (O_W_ID, O_D_ID, O_ID) = (OL_W_ID, OL_D_ID, OL_O_ID) should be 0 in warehouse " ++ fmtD warehouse

/-- Violation message of `checkCondition7`. -/
def violation7 (w : Workloader) (warehouse : Int) (diff : Float64) : String :=
  "count(*) in warehouse " ++ fmtD warehouse ++ ", but got " ++ w.fmtF diff

/-- Violation message of `checkCondition8`. -/
def violation8 (w : Workloader) (warehouse : Int) (diff : Float64) : String :=
  "count(*) in warehouse " ++ fmtD warehouse ++ ", but got " ++ w.fmtF diff

/-- Violation message of `checkCondition9`. -/
def violation9 (w : Workloader) (warehouse : Int) (diff : Float64) : String :=
  "count(*) in warehouse " ++ fmtD warehouse ++ ", but got " ++ w.fmtF diff

/-- Violation message of `checkCondition10`. -/
def violation10 (w : Workloader) (warehouse : Int) (diff : Float64) : String :=
  "count(*) in warehouse " ++ fmtD warehouse ++ ", but got " ++ w.fmtF diff

/-- Violation message of `checkCondition11`; the scanned value is not part of it. -/
def violation11 (_w : Workloader) (warehouse : Int) (_count : Float64) : String :=
  "all of (count(*) from ORDER) - (count(*) from NEW-ORDER) for each district defined by (O_W_ID, O_D_ID) = (NO_W_ID, NO_D_ID) = (C_W_ID, C_D_ID) should be 2100 in warehouse " ++ fmtD warehouse

/-- Violation message of `checkCondition12`. -/
def violation12 (w : Workloader) (warehouse : Int) (diff : Float64) : String :=
  "count(*) in warehouse " ++ fmtD warehouse ++ ", but got " ++ w.fmtF diff

/-- Method `checkCondition1`. -/
def checkCondition1 (w : Workloader) (ctx : Context) (warehouse : Int) : Option String :=
  runCheck w ctx query1 [warehouse] (violation1 w warehouse)

/-- Method `checkCondition2`. -/
def checkCondition2 (w : Workloader) (ctx : Context) (warehouse : Int) : Option String :=
  runCheck w ctx query2 [warehouse, warehouse, warehouse] (violation2 w warehouse)

/-- Method `checkCondition3`. -/
def checkCondition3 (w : Workloader) (ctx : Context) (warehouse : Int) : Option String :=
  runCheck w ctx query3 [warehouse] (violation3 w warehouse)

/-- Method `checkCondition4`. -/
def checkCondition4 (w : Workloader) (ctx : Context) (warehouse : Int) : Option String :=
  runCheck w ctx query4 [warehouse, warehouse] (violation4 w warehouse)

/-- Method `checkCondition5`. -/
def checkCondition5 (w : Workloader) (ctx : Context) (warehouse : Int) : Option String :=
  runCheck w ctx query5 [warehouse] (violation5 w warehouse)

/-- Method `checkCondition6`. -/
def checkCondition6 (w : Workloader) (ctx : Context) (warehouse : Int) : Option String :=
  runCheck w ctx query6 [warehouse] (violation6 w warehouse)

/-- Method `checkCondition7`. -/
def checkCondition7 (w : Workloader) (ctx : Context) (warehouse : Int) : Option String :=
  runCheck w ctx query7 [warehouse] (violation7 w warehouse)

/-- Method `checkCondition8`. -/
def checkCondition8 (w : Workloader) (ctx : Context) (warehouse : Int) : Option String :=
  runCheck w ctx query8 [warehouse] (violation8 w warehouse)

/-- Method `checkCondition9`. -/
def checkCondition9 (w : Workloader) (ctx : Context) (warehouse : Int) : Option String :=
  runCheck w ctx query9 [warehouse, warehouse] (violation9 w warehouse)

/-- Method `checkCondition10`. -/
def checkCondition10 (w : Workloader) (ctx : Context) (warehouse : Int) : Option String :=
  runCheck w ctx query10 [warehouse] (violation10 w warehouse)

/-- Method `checkCondition11`. -/
def checkCondition11 (w : Workloader) (ctx : Context) (warehouse : Int) : Option String :=
  runCheck w ctx query11 [warehouse] (violation11 w warehouse)

/-- Method `checkCondition12`. -/
def checkCondition12 (w : Workloader) (ctx : Context) (warehouse : Int) : Option String :=
  runCheck w ctx query12 [warehouse] (violation12 w warehouse)

/-- The slice `checks` built at the top of `Check`. -/
def checks (w : Workloader) : List (Context → Int → Option String) :=
  [ checkCondition1 w, checkCondition2 w, checkCondition3 w, checkCondition4 w,
    checkCondition5 w, checkCondition6 w, checkCondition7 w, checkCondition8 w,
    checkCondition9 w, checkCondition10 w, checkCondition11 w, checkCondition12 w ]

/-- The inner loop of `Check`, `for i := 0; i < len(checks); i++`, entered with
the checks from index `i` on: the first error is wrapped with `i+1`. -/
def checkLoop (ctx : Context) (warehouse : Int) :
    List (Context → Int → Option String) → Nat → Option String
  | [], _ => none
  | c :: rest, i =>
    match c ctx warehouse with
    | some err => some ("check condition " ++ fmtD ((i : Int) + 1) ++ " failed " ++ err)
    | none => checkLoop ctx warehouse rest (i + 1)

/-- The value a 64-bit signed `int` holds after an operation whose exact
result is `x`: `x` itself inside `[-2^63, 2^63)`, wrapped around outside. -/
def wrapInt (x : Int) : Int :=
  (x + 2 ^ 63) % 2 ^ 64 - 2 ^ 63

/-- The outer loop of `Check`, entered with counter `i`:
`for ; i < Warehouses; i += Threads`, where `i += Threads` wraps around.  The
first argument bounds the number of iterations; the result is `none` when the
bound is used up with the loop condition still true, and when
`i % Warehouses` divides by zero.  Otherwise it is `some r`, with `r` the
value `Check` returns. -/
def sweep (cs : List (Context → Int → Option String)) (ctx : Context)
    (threads warehouses : Int) : Nat → Int → Option (Option String)
  | 0, i => if i < warehouses then none else some none
  | fuel + 1, i =>
    if i < warehouses then
      if warehouses = 0 then none
      else
        let warehouse := wrapInt (Int.tmod i warehouses + 1)
        match checkLoop ctx warehouse cs 0 with
        | some e => some (some e)
        | none => sweep cs ctx threads warehouses fuel (wrapInt (i + threads))
    else some none

/-- The initial value of the loop counter, `threadID % w.cfg.Threads`. -/
def startIndex (cfg : Config) (threadID : Int) : Int :=
  Int.tmod threadID cfg.Threads

/-- The number of values a 64-bit counter can take.  A run of the outer loop
that has not ended after this many rounds has repeated a counter value and
never ends. -/
def iterationBound : Nat := 2 ^ 64

/-- Method `Check`.  `none` stands for a run that returns nothing: the
division by zero of `threadID % 0` or of `i % 0`, or a loop that never ends.
`some none` is the return value `nil`, `some (some msg)` an error with message
`msg`. -/
def Check (w : Workloader) (ctx : Context) (threadID : Int) : Option (Option String) :=
  if w.cfg.Threads = 0 then none
  else
    sweep (checks w) ctx w.cfg.Threads w.cfg.Warehouses
      iterationBound (startIndex w.cfg threadID)

/-- The warehouses the outer loop of `Check` reaches when no check fails: the
loop of `sweep` with the body reduced to `warehouse := i%Warehouses + 1`. -/
def visitLoop (threads warehouses : Int) : Nat → Int → List Int
  | 0, _ => []
  | fuel + 1, i =>
    if i < warehouses then
      if warehouses = 0 then []
      else
        wrapInt (Int.tmod i warehouses + 1)
          :: visitLoop threads warehouses fuel (wrapInt (i + threads))
    else []

/-- The warehouse ids the loop of `Check` visits for `threadID`, in visit
order, when no check fails. -/
def visits (cfg : Config) (threadID : Int) : List Int :=
  if cfg.Threads = 0 then []
  else visitLoop cfg.Threads cfg.Warehouses iterationBound (startIndex cfg threadID)

/-- The inner loop with a record of the calls made: the list of
`(warehouse, check number)` pairs evaluated, in order. -/
def checkLoopTrace (ctx : Context) (warehouse : Int) :
    List (Context → Int → Option String) → Nat → Option String × List (Int × Nat)
  | [], _ => (none, [])
  | c :: rest, i =>
    match c ctx warehouse with
    | some err =>
      (some ("check condition " ++ fmtD ((i : Int) + 1) ++ " failed " ++ err),
        [(warehouse, i + 1)])
    | none =>
      let r := checkLoopTrace ctx warehouse rest (i + 1)
      (r.1, (warehouse, i + 1) :: r.2)

/-- The outer loop with a record of the calls made. -/
def sweepTrace (cs : List (Context → Int → Option String)) (ctx : Context)
    (threads warehouses : Int) : Nat → Int → Option (Option String) × List (Int × Nat)
  | 0, i => if i < warehouses then (none, []) else (some none, [])
  | fuel + 1, i =>
    if i < warehouses then
      if warehouses = 0 then (none, [])
      else
        let warehouse := wrapInt (Int.tmod i warehouses + 1)
        match checkLoopTrace ctx warehouse cs 0 with
        | (some e, tr) => (some (some e), tr)
        | (none, tr) =>
          let r := sweepTrace cs ctx threads warehouses fuel (wrapInt (i + threads))
          (r.1, tr ++ r.2)
    else (some none, [])

/-- Method `Check` together with the sequence of `checks[i](ctx, warehouse)`
calls it makes, each recorded as `(warehouse, i+1)`. -/
def CheckTrace (w : Workloader) (ctx : Context) (threadID : Int) :
    Option (Option String) × List (Int × Nat) :=
  if w.cfg.Threads = 0 then (none, [])
  else
    sweepTrace (checks w) ctx w.cfg.Threads w.cfg.Warehouses
      iterationBound (startIndex w.cfg threadID)

/-- The full sweep order over the warehouses `ws` with `n` checks each:
warehouses in the order given, check numbers `1..n` ascending within each. -/
def sweepOrder (ws : List Int) (n : Nat) : List (Int × Nat) :=
  ws.flatMap (fun wh => (List.range n).map (fun j => (wh, j + 1)))

/-- The error check number `k` (1-based) of the slice `cs` returns on
`warehouse`; `none` when it passes (and for a `k` outside the slice). -/
def outcome (cs : List (Context → Int → Option String)) (ctx : Context)
    (warehouse : Int) (k : Nat) : Option String :=
  match k with
  | 0 => none
  | j + 1 =>
    match cs[j]? with
    | some c => c ctx warehouse
    | none => none

/-- Whether the pair `(warehouse, check number)` fails. -/
def failing (cs : List (Context → Int → Option String)) (ctx : Context)
    (p : Int × Nat) : Bool :=
  (outcome cs ctx p.1 p.2).isSome

/-- The part of a list up to and including its first element satisfying `p`;
the whole list when there is none. -/
def upToFirst {α : Type} (p : α → Bool) : List α → List α
  | [] => []
  | x :: xs => if p x then [x] else x :: upToFirst p xs

/-- The message `Check` builds from check number `k` and that check's error:
`fmt.Errorf("check condition %d failed %v", k, err)`. -/
def wrapped (k : Nat) (err : String) : String :=
  "check condition " ++ fmtD (k : Int) ++ " failed " ++ err

/-- A run over a flat list of `(warehouse, check number)` pairs that stops at
the first error: the wrapped error and the pairs evaluated. -/
def runPairs (out : Int → Nat → Option String) :
    List (Int × Nat) → Option String × List (Int × Nat)
  | [] => (none, [])
  | p :: rest =>
    match out p.1 p.2 with
    | some e => (some (wrapped p.2 e), [p])
    | none => ((runPairs out rest).1, p :: (runPairs out rest).2)

/-- Number of terms of the strided sequence of thread `t`: the number of
`k ≥ 0` with `t + k * Threads < Warehouses`. -/
def visitCount (cfg : Config) (t : Int) : Nat :=
  ((cfg.Warehouses - t + cfg.Threads - 1) / cfg.Threads).toNat

/-- The strided assignment in closed form: the ids
`((t + k * Threads) mod Warehouses) + 1` for `k = 0, 1, 2, ...` taken while
`t + k * Threads < Warehouses`, over the integers. -/
def assigned (cfg : Config) (t : Int) : List Int :=
  (List.range (visitCount cfg t)).map
    (fun k : Nat => (t + k * cfg.Threads) % cfg.Warehouses + 1)

/-- A connection over an empty database: every query succeeds with no rows,
unless the context is cancelled, in which case it fails with `ctx.Err()`. -/
def emptyConn : Conn :=
  ⟨fun ctx _ _ =>
    match ctx.err with
    | some e => Except.error e
    | none => Except.ok ⟨[], none⟩⟩

/-- A workloader with 3 threads and 10 warehouses over `emptyConn`. -/
def sampleWorkloader : Workloader :=
  ⟨⟨3, 10⟩, fun _ => ⟨emptyConn⟩, fun _ => "1.000000"⟩

/-- A context that has not been cancelled. -/
def liveContext : Context := ⟨none⟩

/-- A context after `cancel()`: `ctx.Err()` is `context.Canceled`. -/
def cancelledContext : Context := ⟨some "context canceled"⟩

/-- A connection on which every query executes and yields no row before the
result stream breaks: `rows.Next()` is false at once and `rows.Err()` reports
the failure. -/
def truncatedConn : Conn :=
  ⟨fun _ _ _ => Except.ok ⟨[], some "unexpected EOF"⟩⟩

/-- One thread and one warehouse over `truncatedConn`. -/
def truncatedWorkloader : Workloader :=
  ⟨⟨1, 1⟩, fun _ => ⟨truncatedConn⟩, fun _ => "1.000000"⟩

/-- The largest 64-bit `int`, `math.MaxInt64`. -/
def maxInt : Int := 2 ^ 63 - 1

/-- `maxInt` threads over 10 warehouses on `emptyConn`. -/
def wideWorkloader : Workloader :=
  ⟨⟨maxInt, 10⟩, fun _ => ⟨emptyConn⟩, fun _ => "1.000000"⟩

/-- A connection over a database in which only warehouse `a` violates
condition 1: query 1 bound to `a` returns the single row 1.0, every other
query returns no row. -/
def oneBadConn (a : Int) : Conn :=
  ⟨fun _ query args =>
    if query = query1 ∧ args = [a] then
      Except.ok ⟨[Except.ok ⟨false, 1023, 0⟩], none⟩
    else Except.ok ⟨[], none⟩⟩

/-- `maxInt` threads over 10 warehouses, condition 1 violated for the id `a`
only. -/
def wideBadWorkloader (a : Int) : Workloader :=
  ⟨⟨maxInt, 10⟩, fun _ => ⟨oneBadConn a⟩, fun _ => "1.000000"⟩

/-- Two threads over `maxInt` warehouses on `emptyConn`. -/
def endlessWorkloader : Workloader :=
  ⟨⟨2, maxInt⟩, fun _ => ⟨emptyConn⟩, fun _ => "1.000000"⟩

/-- A connection on which every query fails to execute with the error `e`. -/
def downConn (e : String) : Conn :=
  ⟨fun _ _ _ => Except.error e⟩

/-- The sample workloader over a connection that is down. -/
def downWorkloader (e : String) : Workloader :=
  ⟨⟨3, 10⟩, fun _ => ⟨downConn e⟩, fun _ => "1.000000"⟩

/-- Query text of check number `k`. -/
def queryOf : Nat → String
  | 1 => query1
  | 2 => query2
  | 3 => query3
  | 4 => query4
  | 5 => query5
  | 6 => query6
  | 7 => query7
  | 8 => query8
  | 9 => query9
  | 10 => query10
  | 11 => query11
  | 12 => query12
  | _ => ""

/-- Arguments check number `k` binds: the warehouse id, once per `?`. -/
def argsOf (k : Nat) (warehouse : Int) : List Int :=
  if k = 2 then [warehouse, warehouse, warehouse]
  else if k = 4 ∨ k = 9 then [warehouse, warehouse]
  else [warehouse]

/-- Violation message of check number `k`. -/
def violationOf (w : Workloader) : Nat → Int → Float64 → String
  | 1 => violation1 w
  | 2 => violation2 w
  | 3 => violation3 w
  | 4 => violation4 w
  | 5 => violation5 w
  | 6 => violation6 w
  | 7 => violation7 w
  | 8 => violation8 w
  | 9 => violation9 w
  | 10 => violation10 w
  | 11 => violation11 w
  | 12 => violation12 w
  | _ => fun _ _ => ""

/-- The text of the violation message of check number `k` that precedes the
warehouse id. -/
def violationText : Nat → String
  | 1 => "sum(d_ytd) - max(w_ytd) should be 0 in warehouse "
  | 2 => "POWER((d_next_o_id -1 - mo), 2) + POWER((d_next_o_id -1 - mno),2) != 0 in warehouse "
  | 3 => "max(no_o_id)-min(no_o_id)+1 - count(*) in warehouse "
  | 6 => "all of O_OL_CNT - count(order_line) for the corresponding order defined by (O_W_ID, O_D_ID, O_ID) = (OL_W_ID, OL_D_ID, OL_O_ID) should be 0 in warehouse "
  | 11 => "all of (count(*) from ORDER) - (count(*) from NEW-ORDER) for each district defined by (O_W_ID, O_D_ID) = (NO_W_ID, NO_D_ID) = (C_W_ID, C_D_ID) should be 2100 in warehouse "
  | _ => "count(*) in warehouse "

/-- A connection that answers the query `q` with the single row `v` and every
other query with no rows. -/
def rowConn (q : String) (v : Float64) : Conn :=
  ⟨fun _ query _ =>
    if query = q then Except.ok ⟨[Except.ok v], none⟩ else Except.ok ⟨[], none⟩⟩

/-- One thread, one warehouse, and a database on which only the query `q`
returns a row, with value `v`; `%f` renders a value by its bit fields. -/
def rowWorkloader (q : String) (v : Float64) : Workloader :=
  ⟨⟨1, 1⟩, fun _ => ⟨rowConn q v⟩,
    fun x => toString x.sign ++ "/" ++ toString x.exponent.val ++ "/" ++ toString x.mantissa.val⟩

/-- Two threads over a single warehouse: thread 1 has no warehouse. -/
def idleWorkloader : Workloader :=
  ⟨⟨2, 1⟩, fun _ => ⟨emptyConn⟩, fun _ => "1.000000"⟩

/-- The value 1.0. -/
def Float64.one : Float64 := ⟨false, 1023, 0⟩

/-- The value 2.0. -/
def Float64.two : Float64 := ⟨false, 1024, 0⟩

/-- The smallest positive value, 2^-1074. -/
def Float64.tiny : Float64 := ⟨false, 0, 1⟩

/-! ## The tables and the queries of checks 2, 4, 5 and 6

The SQL text of a check is part of `check.go`; the functions below give the
result of a query over tables held as lists of rows, following the text of the
query clause by clause. -/

/-- A row of table `orders`; `o_carrier_id` is `none` for SQL `NULL`. -/
structure OrderRow where
  o_id : Int
  o_d_id : Int
  o_w_id : Int
  o_c_id : Int
  o_carrier_id : Option Int
  o_ol_cnt : Int
deriving DecidableEq, Repr

/-- A row of table `new_order`. -/
structure NewOrderRow where
  no_o_id : Int
  no_d_id : Int
  no_w_id : Int
deriving DecidableEq, Repr

/-- A row of table `order_line` (the columns the checks modelled here read). -/
structure OrderLineRow where
  ol_o_id : Int
  ol_d_id : Int
  ol_w_id : Int
  ol_number : Int
deriving DecidableEq, Repr

/-- The tables read by checks 4, 5 and 6. -/
structure Database where
  orders : List OrderRow
  new_order : List NewOrderRow
  order_line : List OrderLineRow

/-- SQL `a LEFT JOIN b ON cond`: each row of `a` with each matching row of `b`,
or once with `NULL`s when no row of `b` matches. -/
def leftJoin {α β : Type} (a : List α) (b : List β) (cond : α → β → Bool) :
    List (α × Option β) :=
  a.flatMap (fun x =>
    match b.filter (cond x) with
    | [] => [(x, none)]
    | m :: ms => (m :: ms).map (fun y => (x, some y)))

/-- SQL `a JOIN b ON cond` (also `FROM a, b WHERE cond`). -/
def innerJoin {α β : Type} (a : List α) (b : List β) (cond : α → β → Bool) : List (α × β) :=
  a.flatMap (fun x => (b.filter (cond x)).map (fun y => (x, y)))

/-- SQL `GROUP BY key`: the distinct keys, each with the rows of its group. -/
def groupBy {α κ : Type} [DecidableEq κ] (key : α → κ) (l : List α) : List (κ × List α) :=
  (l.map key).dedup.map (fun k => (k, l.filter (fun x => decide (key x = k))))

/-- SQL `MAX` over a group of integers (`0` stands for the `NULL` of an empty
group, which `GROUP BY` never produces). -/
def sqlMax : List Int → Int
  | [] => 0
  | x :: xs => xs.foldl max x

/-- The join condition of query 5:
`no_w_id=o_w_id AND o_d_id=no_d_id AND o_id=no_o_id`. -/
def on5 (o : OrderRow) (n : NewOrderRow) : Bool :=
  decide (n.no_w_id = o.o_w_id) && decide (o.o_d_id = n.no_d_id) && decide (o.o_id = n.no_o_id)

/-- The `where` clause of query 5 on a row of the left join:
`o_w_id = ? and ((o_carrier_id IS NULL and no_o_id IS NULL) OR
(o_carrier_id IS NOT NULL and no_o_id IS NOT NULL))`. -/
def where5 (warehouse : Int) (r : OrderRow × Option NewOrderRow) : Bool :=
  decide (r.1.o_w_id = warehouse) &&
    ((r.1.o_carrier_id.isNone && (r.2.map (fun n => n.no_o_id)).isNone) ||
     (r.1.o_carrier_id.isSome && (r.2.map (fun n => n.no_o_id)).isSome))

/-- The rows query 5 counts. -/
def query5Rows (db : Database) (warehouse : Int) : List (OrderRow × Option NewOrderRow) :=
  (leftJoin db.orders db.new_order on5).filter (where5 warehouse)

/-- The `count(*)` query 5 returns. -/
def query5Count (db : Database) (warehouse : Int) : Nat :=
  (query5Rows db warehouse).length

/-- The derived table `order_line` of query 6:
`SELECT ol_w_id, ol_d_id, ol_o_id, count(*) order_line_count FROM order_line
GROUP BY ol_w_id, ol_d_id, ol_o_id`. -/
def query6Groups (db : Database) : List ((Int × Int × Int) × Nat) :=
  (groupBy (fun l : OrderLineRow => (l.ol_w_id, l.ol_d_id, l.ol_o_id)) db.order_line).map
    (fun g => (g.1, g.2.length))

/-- The derived table `T` of query 6: `orders JOIN order_line ON ... WHERE
orders.o_w_id = ?`, projected to `(o_ol_cnt, order_line_count)`. -/
def query6T (db : Database) (warehouse : Int) : List (Int × Int) :=
  ((innerJoin db.orders (query6Groups db)
      (fun o g => decide (o.o_w_id = g.1.1) && decide (o.o_d_id = g.1.2.1)
        && decide (o.o_id = g.1.2.2))).filter
    (fun r => decide (r.1.o_w_id = warehouse))).map
    (fun r => (r.1.o_ol_cnt, (r.2.2 : Int)))

/-- The `COUNT(*)` query 6 returns: rows of `T` with
`o_ol_cnt != order_line_count`. -/
def query6Count (db : Database) (warehouse : Int) : Nat :=
  ((query6T db warehouse).filter (fun r => decide (r.1 ≠ r.2))).length

/-- The derived table `ol` of query 4:
`SELECT ol_d_id, COUNT(*) cn FROM order_line WHERE ol_w_id = ? GROUP BY ol_d_id`. -/
def query4Ol (db : Database) (arg1 : Int) : List (Int × Nat) :=
  (groupBy (fun l : OrderLineRow => l.ol_d_id)
      (db.order_line.filter (fun l => decide (l.ol_w_id = arg1)))).map
    (fun g => (g.1, g.2.length))

/-- The derived table `t1` of query 4: `SELECT o_d_id, SUM(o_ol_cnt) sm1,
MAX(cn) as cn FROM orders, ol WHERE o_w_id = ? AND ol_d_id=o_d_id GROUP BY
o_d_id`, as rows `(o_d_id, sm1, cn)`. -/
def query4T1 (db : Database) (arg1 arg2 : Int) : List (Int × Int × Int) :=
  (groupBy (fun r : OrderRow × (Int × Nat) => r.1.o_d_id)
      (innerJoin db.orders (query4Ol db arg1)
        (fun o g => decide (o.o_w_id = arg2) && decide (g.1 = o.o_d_id)))).map
    (fun g => (g.1, (g.2.map (fun r => r.1.o_ol_cnt)).sum,
      sqlMax (g.2.map (fun r => (r.2.2 : Int)))))

/-- The `count(*)` query 4 returns: rows of `t1` with `sm1<>cn`. -/
def query4Count (db : Database) (arg1 arg2 : Int) : Nat :=
  ((query4T1 db arg1 arg2).filter (fun r => decide (r.2.1 ≠ r.2.2))).length

/-- The select expression of query 2 on a joined row with columns
`d_next_o_id`, `mo`, `mno`:
`POWER((d_next_o_id -1 - mo), 2) + POWER((d_next_o_id -1 - mno), 2)`. -/
def query2Diff (d_next_o_id mo mno : Int) : Int :=
  (d_next_o_id - 1 - mo) ^ 2 + (d_next_o_id - 1 - mno) ^ 2

/-- Number of order-line rows present for an order. -/
def orderLineCount (db : Database) (o : OrderRow) : Nat :=
  (db.order_line.filter (fun l =>
    decide (l.ol_w_id = o.o_w_id) && decide (l.ol_d_id = o.o_d_id)
      && decide (l.ol_o_id = o.o_id))).length

/-- Whether an order has a matching row in `new_order`: a row carrying the
order's own warehouse id, district id and order id. -/
def hasNewOrder (db : Database) (o : OrderRow) : Bool :=
  db.new_order.any (fun n =>
    decide (n.no_w_id = o.o_w_id ∧ n.no_d_id = o.o_d_id ∧ n.no_o_id = o.o_id))

/-- The position of the leading one bit of `n` (`0` for `n < 2`), computed in
at most `fuel` halvings. -/
def floorLog2 : Nat → Nat → Nat
  | 0, _ => 0
  | fuel + 1, n => if n < 2 then 0 else floorLog2 fuel (n / 2) + 1

/-- The positive `float64` with unbiased exponent `e` and fraction bits `m`,
that is `2^e * (1 + m / 2^52)`; plus infinity when `e` is out of range. -/
def Float64.normal (e m : Nat) : Float64 :=
  if 1024 ≤ e then ⟨false, ⟨2047, by norm_num⟩, ⟨0, by norm_num⟩⟩
  else
    ⟨false, ⟨(1023 + e) % 2048, Nat.mod_lt _ (by norm_num)⟩,
      ⟨m % 2 ^ 52, Nat.mod_lt _ (by norm_num)⟩⟩

/-- The `float64` nearest to a natural number (ties to even), the value a
`count(*)` column scans to. -/
def Float64.ofNat (n : Nat) : Float64 :=
  if n = 0 then Float64.zero
  else
    let e := floorLog2 n n
    if e ≤ 52 then Float64.normal e (n * 2 ^ (52 - e) - 2 ^ 52)
    else
      let q := n / 2 ^ (e - 52)
      let r := n % 2 ^ (e - 52)
      let half := 2 ^ (e - 53)
      let q' := if half < r ∨ (r = half ∧ q % 2 = 1) then q + 1 else q
      if q' = 2 ^ 53 then Float64.normal (e + 1) 0 else Float64.normal e (q' - 2 ^ 52)

/-- A connection over the tables `db`: it answers the queries of checks 4, 5
and 6 with their single `count(*)` row and fails on any other query text or
argument list. -/
def dbConn (db : Database) : Conn :=
  ⟨fun _ query args =>
    if query = query4 then
      match args with
      | [a, b] => Except.ok ⟨[Except.ok (Float64.ofNat (query4Count db a b))], none⟩
      | _ => Except.error "wrong number of arguments"
    else if query = query5 then
      match args with
      | [a] => Except.ok ⟨[Except.ok (Float64.ofNat (query5Count db a))], none⟩
      | _ => Except.error "wrong number of arguments"
    else if query = query6 then
      match args with
      | [a] => Except.ok ⟨[Except.ok (Float64.ofNat (query6Count db a))], none⟩
      | _ => Except.error "wrong number of arguments"
    else Except.error "query not modelled"⟩

/-- One thread and one warehouse over the tables `db`. -/
def dbWorkloader (db : Database) : Workloader :=
  ⟨⟨1, 1⟩, fun _ => ⟨dbConn db⟩,
    fun x => toString x.sign ++ "/" ++ toString x.exponent.val ++ "/" ++ toString x.mantissa.val⟩

/-- Warehouse 1 with a single order that declares 5 order lines and has no
order-line row at all. -/
def orphanOrderDb : Database :=
  ⟨[⟨1, 1, 1, 1, none, 5⟩], [⟨1, 1, 1⟩], []⟩

/-- Warehouse 1 with a single order that declares 5 order lines and has 4
order-line rows. -/
def shortOrderDb : Database :=
  ⟨[⟨1, 1, 1, 1, none, 5⟩], [⟨1, 1, 1⟩],
    [⟨1, 1, 1, 1⟩, ⟨1, 1, 1, 2⟩, ⟨1, 1, 1, 3⟩, ⟨1, 1, 1, 4⟩]⟩

/-- Warehouse 1 with a single undelivered order (no carrier) of district 1,
order id 1, and a single `new_order` row, of district 2: the order has no
matching `new_order` row. -/
def strayNewOrderDb : Database :=
  ⟨[⟨1, 1, 1, 1, none, 5⟩], [⟨1, 2, 1⟩], []⟩

/-- Warehouse 1 with a single delivered order (carrier 7) whose `new_order` row
is still present. -/
def staleNewOrderDb : Database :=
  ⟨[⟨1, 1, 1, 1, some 7, 5⟩], [⟨1, 1, 1⟩], []⟩

/-! ## The loops of `Check` -/

theorem checkLoopTrace_fst (ctx : Context) (wh : Int)
    (cs : List (Context → Int → Option String)) (i : Nat) :
    (checkLoopTrace ctx wh cs i).1 = checkLoop ctx wh cs i := by
  induction cs generalizing i with
  | nil => rfl
  | cons c rest ih =>
    simp only [checkLoopTrace, checkLoop]
    cases c ctx wh with
    | none => simpa using ih (i + 1)
    | some e => rfl

theorem sweepTrace_fst (cs : List (Context → Int → Option String)) (ctx : Context)
    (T W : Int) (fuel : Nat) (i : Int) :
    (sweepTrace cs ctx T W fuel i).1 = sweep cs ctx T W fuel i := by
  induction fuel generalizing i with
  | zero => simp only [sweepTrace, sweep]; split <;> rfl
  | succ n ih =>
    simp only [sweepTrace, sweep]
    by_cases h : i < W
    · by_cases hW : W = 0
      · subst hW
        simp [h]
      · simp only [h, hW, if_true, if_false]
        rw [← checkLoopTrace_fst]
        rcases hc : checkLoopTrace ctx (wrapInt (Int.tmod i W + 1)) cs 0 with ⟨r, tr⟩
        cases r with
        | none => simpa using ih (wrapInt (i + T))
        | some e => rfl
    · simp [h]

theorem CheckTrace_fst (w : Workloader) (ctx : Context) (threadID : Int) :
    (CheckTrace w ctx threadID).1 = Check w ctx threadID := by
  unfold CheckTrace Check
  split
  · rfl
  · exact sweepTrace_fst _ _ _ _ _ _

theorem checkLoopTrace_eq_runPairs (out : Int → Nat → Option String) (ctx : Context)
    (wh : Int) (cs : List (Context → Int → Option String)) (i : Nat)
    (hout : ∀ j (h : j < cs.length), out wh (i + j + 1) = (cs.get ⟨j, h⟩) ctx wh) :
    checkLoopTrace ctx wh cs i
      = runPairs out ((List.range cs.length).map (fun j => (wh, i + j + 1))) := by
  induction cs generalizing i with
  | nil => rfl
  | cons c rest ih =>
    have h0 := hout 0 (by simp)
    simp only [List.length_cons, List.range_succ_eq_map, List.map_cons, List.map_map,
      runPairs, checkLoopTrace]
    simp only [Nat.add_zero, List.get_eq_getElem, List.getElem_cons_zero] at h0
    rw [Nat.add_zero, h0]
    have ih' := ih (i + 1) (fun j h => by
      have := hout (j + 1) (by simpa using h)
      simpa [Nat.add_assoc, Nat.add_comm 1 j] using this)
    have hmap : (List.map ((fun j => (wh, i + j + 1)) ∘ Nat.succ) (List.range rest.length))
        = List.map (fun j => (wh, i + 1 + j + 1)) (List.range rest.length) := by
      apply List.map_congr_left
      intro j _
      simp only [Function.comp, Nat.succ_eq_add_one]
      congr 1
      omega
    rw [hmap, ← ih']
    cases hc : c ctx wh with
    | none => rfl
    | some e =>
      simp only [wrapped]
      congr 3

theorem runPairs_append (out : Int → Nat → Option String) (l₁ l₂ : List (Int × Nat)) :
    runPairs out (l₁ ++ l₂)
      = match runPairs out l₁ with
        | (some e, tr) => (some e, tr)
        | (none, tr) => ((runPairs out l₂).1, tr ++ (runPairs out l₂).2) := by
  induction l₁ with
  | nil => simp [runPairs]
  | cons p rest ih =>
    simp only [List.cons_append, runPairs]
    cases hp : out p.1 p.2 with
    | some e => rfl
    | none =>
      have ih' : runPairs out (rest.append l₂) = _ := ih
      simp only [ih']
      rcases hr : runPairs out rest with ⟨r, tr⟩
      cases r <;> simp

theorem runPairs_trace (out : Int → Nat → Option String) (l : List (Int × Nat)) :
    (runPairs out l).2 = upToFirst (fun p => (out p.1 p.2).isSome) l := by
  induction l with
  | nil => rfl
  | cons p rest ih =>
    simp only [runPairs, upToFirst]
    split <;> rename_i hp <;> simp [hp, ih]

theorem runPairs_result (out : Int → Nat → Option String) (l : List (Int × Nat)) :
    (runPairs out l).1
      = (l.find? (fun p => (out p.1 p.2).isSome)).bind
          (fun p => (out p.1 p.2).map (wrapped p.2)) := by
  induction l with
  | nil => rfl
  | cons p rest ih =>
    simp only [runPairs, List.find?]
    split <;> rename_i hp <;> simp [hp, ih]

theorem wrapInt_eq (x : Int) (h1 : -2 ^ 63 ≤ x) (h2 : x < 2 ^ 63) : wrapInt x = x := by
  unfold wrapInt
  omega

theorem visitLoop_closed (T W : Int) (hT : 1 ≤ T) (hb : T + W ≤ 2 ^ 63) (fuel : Nat)
    (i : Int) (hi : 0 ≤ i) (hfuel : (W - i).toNat ≤ fuel) :
    visitLoop T W fuel i
      = (List.range ((W - i + T - 1) / T).toNat).map (fun k : Nat => i + k * T + 1) := by
  have hT0 : T ≠ 0 := by omega
  induction fuel generalizing i with
  | zero =>
    have hle : W ≤ i := by omega
    have hq : (W - i + T - 1) / T < 1 := Int.ediv_lt_of_lt_mul (by omega) (by omega)
    have hz : ((W - i + T - 1) / T).toNat = 0 := by omega
    simp [visitLoop, hz]
  | succ n ih =>
    by_cases h : i < W
    · have hW0 : W ≠ 0 := by omega
      have hmod : Int.tmod i W = i := by
        rw [Int.tmod_eq_emod hi (by omega)]
        exact Int.emod_eq_of_lt hi h
      have hw1 : wrapInt (i + 1) = i + 1 := wrapInt_eq _ (by omega) (by omega)
      have hw2 : wrapInt (i + T) = i + T := wrapInt_eq _ (by omega) (by omega)
      have hq0 : 0 ≤ (W - i - 1) / T := Int.ediv_nonneg (by omega) (by omega)
      have hsplit : (W - i + T - 1) / T = (W - i - 1) / T + 1 := by
        have := Int.add_mul_ediv_right (W - i - 1) 1 hT0
        rw [one_mul] at this
        rw [← this]
        congr 1
        ring
      have hnext : (W - (i + T) + T - 1) / T = (W - i - 1) / T := by
        congr 1
        ring
      have hcount : ((W - i + T - 1) / T).toNat = ((W - i - 1) / T).toNat + 1 := by
        rw [hsplit]
        omega
      have ih' := ih (i + T) (by omega) (by omega)
      rw [hnext] at ih'
      simp only [visitLoop, h, hW0, if_true, if_false, hmod, hw1, hw2, ih', hcount,
        List.range_succ_eq_map, List.map_cons, List.map_map]
      refine congrArg₂ _ (by simp) ?_
      apply List.map_congr_left
      intro k _
      simp only [Function.comp, Nat.succ_eq_add_one]
      push_cast
      ring
    · have hq : (W - i + T - 1) / T < 1 := Int.ediv_lt_of_lt_mul (by omega) (by omega)
      have hz : ((W - i + T - 1) / T).toNat = 0 := by omega
      simp [visitLoop, h, hz]

theorem visitCount_lt_iff (T W t : Int) (hT : 1 ≤ T) (k : Nat) :
    k < ((W - t + T - 1) / T).toNat ↔ t + k * T < W := by
  have hT0 : 0 < T := by omega
  constructor
  · intro hk
    have h1 : (k : Int) < (W - t + T - 1) / T := by omega
    have h2 : ((k : Int) + 1) * T ≤ W - t + T - 1 := by
      have := Int.le_ediv_iff_mul_le (a := (k : Int) + 1) (b := W - t + T - 1) hT0
      exact this.mp (by omega)
    nlinarith
  · intro hk
    have h2 : ((k : Int) + 1) * T ≤ W - t + T - 1 := by nlinarith
    have := (Int.le_ediv_iff_mul_le (a := (k : Int) + 1) (b := W - t + T - 1) hT0).mpr h2
    omega

theorem outcome_get (cs : List (Context → Int → Option String)) (ctx : Context)
    (wh : Int) (j : Nat) (h : j < cs.length) :
    outcome cs ctx wh (j + 1) = (cs.get ⟨j, h⟩) ctx wh := by
  simp [outcome, List.getElem?_eq_getElem h]

theorem sweepTrace_runPairs (cs : List (Context → Int → Option String)) (ctx : Context)
    (T W : Int) (fuel : Nat) (i : Int) :
    (sweepTrace cs ctx T W fuel i).2
        = (runPairs (outcome cs ctx) (sweepOrder (visitLoop T W fuel i) cs.length)).2 ∧
    (∀ e, (runPairs (outcome cs ctx) (sweepOrder (visitLoop T W fuel i) cs.length)).1 = some e →
      (sweepTrace cs ctx T W fuel i).1 = some (some e)) := by
  induction fuel generalizing i with
  | zero =>
    by_cases h : i < W <;> simp [sweepTrace, visitLoop, sweepOrder, runPairs, h]
  | succ n ih =>
    by_cases h : i < W
    · by_cases hW : W = 0
      · subst hW
        simp [sweepTrace, visitLoop, sweepOrder, runPairs, h]
      · have hinner := checkLoopTrace_eq_runPairs (outcome cs ctx) ctx
          (wrapInt (Int.tmod i W + 1)) cs 0
          (fun j hj => by rw [Nat.zero_add]; exact outcome_get cs ctx _ j hj)
        simp only [Nat.zero_add] at hinner
        obtain ⟨ih1, ih2⟩ := ih (wrapInt (i + T))
        simp only [sweepTrace, visitLoop, h, hW, if_true, if_false, sweepOrder,
          List.flatMap_cons, runPairs_append]
        rw [hinner]
        rcases hr : runPairs (outcome cs ctx)
          (List.map (fun j => (wrapInt (Int.tmod i W + 1), j + 1)) (List.range cs.length))
          with ⟨r, tr⟩
        cases r with
        | some e => simp
        | none =>
          refine ⟨?_, ?_⟩
          · simp only [ih1]
            rfl
          · intro e he
            exact ih2 e he
    · simp [sweepTrace, visitLoop, sweepOrder, runPairs, h]

theorem sweepTrace_eq_runPairs (cs : List (Context → Int → Option String)) (ctx : Context)
    (T W : Int) (hT : 1 ≤ T) (hb : T + W ≤ 2 ^ 63) (fuel : Nat) (i : Int) (hi : 0 ≤ i)
    (hfuel : (W - i).toNat ≤ fuel) :
    sweepTrace cs ctx T W fuel i
      = (some (runPairs (outcome cs ctx) (sweepOrder (visitLoop T W fuel i) cs.length)).1,
          (runPairs (outcome cs ctx) (sweepOrder (visitLoop T W fuel i) cs.length)).2) := by
  induction fuel generalizing i with
  | zero =>
    have hle : ¬ i < W := by omega
    simp [sweepTrace, visitLoop, sweepOrder, runPairs, hle]
  | succ n ih =>
    by_cases h : i < W
    · have hW : W ≠ 0 := by omega
      have hw2 : wrapInt (i + T) = i + T := wrapInt_eq _ (by omega) (by omega)
      have hinner := checkLoopTrace_eq_runPairs (outcome cs ctx) ctx
        (wrapInt (Int.tmod i W + 1)) cs 0
        (fun j hj => by rw [Nat.zero_add]; exact outcome_get cs ctx _ j hj)
      simp only [Nat.zero_add] at hinner
      have ih' := ih (i + T) (by omega) (by omega)
      simp only [sweepTrace, visitLoop, h, hW, if_true, if_false, sweepOrder,
        List.flatMap_cons, runPairs_append, hw2]
      rw [hinner, ih']
      rcases hr : runPairs (outcome cs ctx)
        (List.map (fun j => (wrapInt (Int.tmod i W + 1), j + 1)) (List.range cs.length))
        with ⟨r, tr⟩
      cases r <;> simp [sweepOrder]
    · simp [sweepTrace, visitLoop, sweepOrder, runPairs, h]

theorem sweep_not_entered (cs : List (Context → Int → Option String)) (ctx : Context)
    (T W : Int) (fuel : Nat) (i : Int) (h : ¬ i < W) :
    sweep cs ctx T W fuel i = some none := by
  cases fuel <;> simp [sweep, h]

theorem startIndex_eq (cfg : Config) (t : Int) (hT : 1 ≤ cfg.Threads) (ht0 : 0 ≤ t)
    (htT : t < cfg.Threads) : startIndex cfg t = t := by
  unfold startIndex
  rw [Int.tmod_eq_emod ht0 (by omega)]
  exact Int.emod_eq_of_lt ht0 htT

theorem iterationBound_ge (W t : Int) (hW : W ≤ 2 ^ 63) (ht0 : 0 ≤ t) :
    (W - t).toNat ≤ iterationBound := by
  unfold iterationBound
  rw [Int.toNat_le]
  push_cast
  omega

theorem visits_eq (cfg : Config) (t : Int) (hT : 1 ≤ cfg.Threads)
    (hb : cfg.Threads + cfg.Warehouses ≤ 2 ^ 63) (ht0 : 0 ≤ t) (htT : t < cfg.Threads) :
    visits cfg t
      = (List.range (visitCount cfg t)).map (fun k : Nat => t + k * cfg.Threads + 1) := by
  have hne : cfg.Threads ≠ 0 := by omega
  unfold visits visitCount
  rw [if_neg hne, startIndex_eq cfg t hT ht0 htT]
  exact visitLoop_closed cfg.Threads cfg.Warehouses hT hb _ t ht0
    (iterationBound_ge _ _ (by omega) ht0)

theorem mem_visits (cfg : Config) (t : Int) (hT : 1 ≤ cfg.Threads)
    (hb : cfg.Threads + cfg.Warehouses ≤ 2 ^ 63) (ht0 : 0 ≤ t) (htT : t < cfg.Threads)
    (id : Int) :
    id ∈ visits cfg t
      ↔ ∃ k : Nat, t + k * cfg.Threads < cfg.Warehouses ∧ id = t + k * cfg.Threads + 1 := by
  rw [visits_eq cfg t hT hb ht0 htT, List.mem_map]
  constructor
  · rintro ⟨k, hk, rfl⟩
    refine ⟨k, ?_, rfl⟩
    rw [List.mem_range] at hk
    exact (visitCount_lt_iff _ _ _ hT k).mp hk
  · rintro ⟨k, hk, rfl⟩
    refine ⟨k, ?_, rfl⟩
    rw [List.mem_range]
    exact (visitCount_lt_iff _ _ _ hT k).mpr hk

theorem visits_sorted (cfg : Config) (t : Int) (hT : 1 ≤ cfg.Threads)
    (hb : cfg.Threads + cfg.Warehouses ≤ 2 ^ 63) (ht0 : 0 ≤ t) (htT : t < cfg.Threads) :
    (visits cfg t).Sorted (fun a b => a < b) := by
  rw [visits_eq cfg t hT hb ht0 htT]
  unfold List.Sorted
  rw [List.pairwise_map]
  refine (List.pairwise_lt_range _).imp ?_
  intro a b hab
  have : (a : Int) < b := by exact_mod_cast hab
  nlinarith

theorem visits_nodup (cfg : Config) (t : Int) (hT : 1 ≤ cfg.Threads)
    (hb : cfg.Threads + cfg.Warehouses ≤ 2 ^ 63) (ht0 : 0 ≤ t) (htT : t < cfg.Threads) :
    (visits cfg t).Nodup :=
  (visits_sorted cfg t hT hb ht0 htT).imp (fun h => ne_of_lt h)

theorem assigned_eq (cfg : Config) (t : Int) (hT : 1 ≤ cfg.Threads) (ht0 : 0 ≤ t) :
    assigned cfg t
      = (List.range (visitCount cfg t)).map (fun k : Nat => t + k * cfg.Threads + 1) := by
  unfold assigned
  apply List.map_congr_left
  intro k hk
  rw [List.mem_range] at hk
  have hlt := (visitCount_lt_iff cfg.Threads cfg.Warehouses t hT k).mp hk
  have h0 : 0 ≤ t + k * cfg.Threads := by positivity
  rw [Int.emod_eq_of_lt h0 hlt]

theorem CheckTrace_snd (w : Workloader) (ctx : Context) (t : Int) :
    (CheckTrace w ctx t).2
      = (runPairs (outcome (checks w) ctx) (sweepOrder (visits w.cfg t) 12)).2 := by
  unfold CheckTrace visits
  by_cases hne : w.cfg.Threads = 0
  · simp [hne, sweepOrder, runPairs]
  · rw [if_neg hne, if_neg hne]
    exact (sweepTrace_runPairs (checks w) ctx _ _ _ _).1

theorem Check_of_error (w : Workloader) (ctx : Context) (t : Int) (e : String)
    (h : (runPairs (outcome (checks w) ctx) (sweepOrder (visits w.cfg t) 12)).1 = some e) :
    Check w ctx t = some (some e) := by
  rw [← CheckTrace_fst]
  unfold CheckTrace
  unfold visits at h
  by_cases hne : w.cfg.Threads = 0
  · rw [if_pos hne] at h
    simp [sweepOrder, runPairs] at h
  · rw [if_neg hne] at h
    rw [if_neg hne]
    exact (sweepTrace_runPairs (checks w) ctx _ _ _ _).2 e h

theorem CheckTrace_eq (w : Workloader) (ctx : Context) (t : Int) (hT : 1 ≤ w.cfg.Threads)
    (hb : w.cfg.Threads + w.cfg.Warehouses ≤ 2 ^ 63) (ht0 : 0 ≤ t)
    (htT : t < w.cfg.Threads) :
    CheckTrace w ctx t
      = (some (runPairs (outcome (checks w) ctx) (sweepOrder (visits w.cfg t) 12)).1,
          (runPairs (outcome (checks w) ctx) (sweepOrder (visits w.cfg t) 12)).2) := by
  have hne : w.cfg.Threads ≠ 0 := by omega
  unfold CheckTrace visits
  rw [if_neg hne, if_neg hne]
  have hs := startIndex_eq w.cfg t hT ht0 htT
  have := sweepTrace_eq_runPairs (checks w) ctx w.cfg.Threads w.cfg.Warehouses hT hb
    iterationBound (startIndex w.cfg t) (by omega)
    (by rw [hs]; exact iterationBound_ge _ _ (by omega) ht0)
  rw [this]
  rfl

theorem mem_sweepOrder (ws : List Int) (n : Nat) (p : Int × Nat) :
    p ∈ sweepOrder ws n ↔ p.1 ∈ ws ∧ 1 ≤ p.2 ∧ p.2 ≤ n := by
  unfold sweepOrder
  rw [List.mem_flatMap]
  constructor
  · rintro ⟨wh, hwh, hp⟩
    rw [List.mem_map] at hp
    obtain ⟨j, hj, rfl⟩ := hp
    rw [List.mem_range] at hj
    exact ⟨hwh, by simp, by simp; omega⟩
  · rintro ⟨h1, h2, h3⟩
    refine ⟨p.1, h1, ?_⟩
    rw [List.mem_map]
    refine ⟨p.2 - 1, ?_, ?_⟩
    · rw [List.mem_range]; omega
    · ext
      · rfl
      · simp; omega

theorem sweepOrder_nodup (ws : List Int) (n : Nat) (h : ws.Nodup) : (sweepOrder ws n).Nodup := by
  unfold sweepOrder
  rw [List.nodup_flatMap]
  constructor
  · intro wh _
    refine List.Nodup.map ?_ (List.nodup_range n)
    intro a b hab
    simpa using hab
  · refine h.imp ?_
    intro a b hab
    simp only [Function.onFun]
    intro p hp1 hp2
    rw [List.mem_map] at hp1 hp2
    obtain ⟨_, _, rfl⟩ := hp1
    obtain ⟨_, _, h2⟩ := hp2
    exact hab (by simpa using (congrArg Prod.fst h2).symm)

theorem upToFirst_isPrefix {α : Type} (p : α → Bool) (l : List α) : upToFirst p l <+: l := by
  induction l with
  | nil => exact List.prefix_refl _
  | cons x xs ih =>
    unfold upToFirst
    split
    · exact ⟨xs, rfl⟩
    · exact (List.prefix_cons_inj x).mpr ih

theorem upToFirst_stops {α : Type} (p : α → Bool) (l l₁ l₂ : List α) (x : α)
    (h : upToFirst p l = l₁ ++ x :: l₂) (hx : p x = true) : l₂ = [] := by
  induction l generalizing l₁ with
  | nil => simp [upToFirst] at h
  | cons y ys ih =>
    unfold upToFirst at h
    split at h
    · cases l₁ with
      | nil => simpa using (List.cons.inj h).2.symm
      | cons z zs =>
        have := (List.cons.inj h).2
        simp at this
    · rename_i hy
      cases l₁ with
      | nil =>
        have := (List.cons.inj h).1
        subst this
        exact absurd hx hy
      | cons z zs => exact ih zs (List.cons.inj h).2

theorem upToFirst_eq_self {α : Type} (p : α → Bool) (l : List α)
    (h : ∀ x ∈ l, p x = false) : upToFirst p l = l := by
  induction l with
  | nil => rfl
  | cons x xs ih =>
    unfold upToFirst
    rw [if_neg (by simp [h x (List.mem_cons_self _ _)])]
    rw [ih (fun y hy => h y (List.mem_cons_of_mem _ hy))]

/-! ## The comparison `diff != 0` -/

theorem Float64.ne_zero_eq (x : Float64) : Float64.ne x Float64.zero = !x.isZero := by
  rcases x with ⟨s, e, m⟩
  simp only [Float64.ne, Float64.eq, Float64.isNaN, Float64.isZero, Float64.zero]
  by_cases he : e.val = 0
  · by_cases hm : m.val = 0
    · simp [he, hm]
    · have hm' : m ≠ 0 := fun h => hm (by rw [h]; rfl)
      simp [he, hm, hm']
  · have he' : e ≠ 0 := fun h => he (by rw [h]; rfl)
    simp [he, he']

theorem Float64.toRat?_eq_zero_iff (x : Float64) : x.toRat? = some 0 ↔ x.isZero = true := by
  rcases x with ⟨s, e, m⟩
  simp only [Float64.toRat?, Float64.isZero]
  by_cases h2047 : e.val = 2047
  · simp [h2047]
  · rw [if_neg h2047]
    by_cases he : e.val = 0
    · simp only [he, if_true, Option.some.injEq, beq_self_eq_true, Bool.true_and, beq_iff_eq]
      constructor
      · intro h
        have h2 : (2 : ℚ) ^ 1074 ≠ 0 := by positivity
        rw [div_eq_zero_iff] at h
        rcases h with h | h
        · rcases mul_eq_zero.mp h with hs | hm
          · split at hs <;> norm_num at hs
          · exact_mod_cast hm
        · exact absurd h h2
      · intro h
        simp [h]
    · simp only [he, if_false, Option.some.injEq, beq_iff_eq, Bool.and_eq_true, false_and,
        iff_false]
      have h1 : ((if s = true then (-1 : ℚ) else 1)) ≠ 0 := by split <;> norm_num
      have h2 : (((2 ^ 52 + m.val : ℕ) : ℚ)) ≠ 0 := by
        have : 0 < 2 ^ 52 + m.val := by positivity
        exact_mod_cast this.ne'
      have h3 : (2 : ℚ) ^ e.val ≠ 0 := by positivity
      have h4 : (2 : ℚ) ^ 1075 ≠ 0 := by positivity
      exact div_ne_zero (mul_ne_zero (mul_ne_zero h1 h2) h3) h4

theorem Float64.ne_zero_iff (x : Float64) :
    Float64.ne x Float64.zero = true ↔ x.toRat? ≠ some 0 := by
  rw [Float64.ne_zero_eq, Ne, Float64.toRat?_eq_zero_iff]
  cases x.isZero <;> simp

/-! ## The twelve checks -/

theorem outcome_checks (w : Workloader) (ctx : Context) (wh : Int) (k : Nat)
    (hk1 : 1 ≤ k) (hk12 : k ≤ 12) :
    outcome (checks w) ctx wh k
      = runCheck w ctx (queryOf k) (argsOf k wh) (violationOf w k wh) := by
  interval_cases k <;> rfl

theorem violationOf_eq (w : Workloader) (k : Nat) (wh : Int) (v : Float64)
    (hk1 : 1 ≤ k) (hk12 : k ≤ 12) :
    violationOf w k wh v
      = if k = 6 ∨ k = 11 then violationText k ++ fmtD wh
        else violationText k ++ fmtD wh ++ ", but got " ++ w.fmtF v := by
  interval_cases k <;> rfl

theorem scanRows_all_ok (violation : Float64 → String) (vals : List Float64)
    (err : Option String) :
    scanRows violation (vals.map Except.ok) err
      = ((vals.find? (fun v => Float64.ne v Float64.zero)).map violation).or err := by
  induction vals with
  | nil => simp [scanRows]
  | cons v rest ih =>
    simp only [List.map_cons, scanRows, List.find?]
    cases hv : Float64.ne v Float64.zero with
    | true => simp
    | false => simp [ih]

theorem find?_ne_zero_eq (vals : List Float64) :
    vals.find? (fun v => Float64.ne v Float64.zero)
      = vals.find? (fun v => decide (v.toRat? ≠ some 0)) := by
  congr 1
  funext v
  rw [Bool.eq_iff_iff, Float64.ne_zero_iff]
  simp

theorem runCheck_rows_err (w : Workloader) (ctx : Context) (query : String)
    (args : List Int) (violation : Float64 → String) (vals : List Float64)
    (err : Option String)
    (hq : (w.getState ctx).Conn.QueryContext ctx query args
      = Except.ok ⟨vals.map Except.ok, err⟩) :
    runCheck w ctx query args violation
      = ((vals.find? (fun v => decide (v.toRat? ≠ some 0))).map violation).or err := by
  unfold runCheck
  simp only [hq]
  rw [scanRows_all_ok, find?_ne_zero_eq]

theorem runCheck_rows (w : Workloader) (ctx : Context) (query : String) (args : List Int)
    (violation : Float64 → String) (vals : List Float64)
    (hq : (w.getState ctx).Conn.QueryContext ctx query args
      = Except.ok ⟨vals.map Except.ok, none⟩) :
    runCheck w ctx query args violation
      = (vals.find? (fun v => decide (v.toRat? ≠ some 0))).map violation := by
  rw [runCheck_rows_err w ctx query args violation vals none hq]
  simp

theorem runCheck_exec_error (w : Workloader) (ctx : Context) (query : String)
    (args : List Int) (violation : Float64 → String) (e : String)
    (hq : (w.getState ctx).Conn.QueryContext ctx query args = Except.error e) :
    runCheck w ctx query args violation = some ("Exec " ++ query ++ " failed " ++ e) := by
  unfold runCheck
  simp only [hq]

theorem first_failure_spec (w : Workloader) (ctx : Context) (ws : List Int) (wh : Int)
    (k : Nat)
    (h : (sweepOrder ws 12).find? (failing (checks w) ctx) = some (wh, k)) :
    wh ∈ ws ∧ 1 ≤ k ∧ k ≤ 12 ∧ (outcome (checks w) ctx wh k).isSome = true := by
  have hmem := List.mem_of_find?_eq_some h
  rw [mem_sweepOrder] at hmem
  have hf : failing (checks w) ctx (wh, k) = true := List.find?_some h
  exact ⟨hmem.1, hmem.2.1, hmem.2.2, hf⟩

theorem Check_first_failure (w : Workloader) (ctx : Context) (t : Int) (wh : Int) (k : Nat)
    (e : String)
    (h : (sweepOrder (visits w.cfg t) 12).find? (failing (checks w) ctx) = some (wh, k))
    (he : outcome (checks w) ctx wh k = some e) :
    Check w ctx t = some (some ("check condition " ++ fmtD (k : Int) ++ " failed " ++ e)) := by
  apply Check_of_error
  rw [runPairs_result]
  have hpred : (fun p : Int × Nat => (outcome (checks w) ctx p.1 p.2).isSome)
      = failing (checks w) ctx := rfl
  rw [hpred, h]
  simp [he, wrapped]

theorem checkLoop_congr (ctx ctx' : Context) (wh : Int)
    (cs : List (Context → Int → Option String)) (i : Nat)
    (h : ∀ c ∈ cs, c ctx wh = c ctx' wh) :
    checkLoop ctx wh cs i = checkLoop ctx' wh cs i := by
  induction cs generalizing i with
  | nil => rfl
  | cons c rest ih =>
    simp only [checkLoop]
    rw [h c (List.mem_cons_self _ _)]
    cases c ctx' wh with
    | none => exact ih (i + 1) (fun c' hc' => h c' (List.mem_cons_of_mem _ hc'))
    | some e => rfl

theorem sweep_congr (cs : List (Context → Int → Option String)) (ctx ctx' : Context)
    (T W : Int) (fuel : Nat) (i : Int) (h : ∀ c ∈ cs, ∀ wh, c ctx wh = c ctx' wh) :
    sweep cs ctx T W fuel i = sweep cs ctx' T W fuel i := by
  induction fuel generalizing i with
  | zero => rfl
  | succ n ih =>
    simp only [sweep]
    rw [checkLoop_congr ctx ctx' _ cs 0 (fun c hc => h c hc _), ih]

theorem checks_congr (w : Workloader) (ctx ctx' : Context)
    (h : ∀ q args, (w.getState ctx').Conn.QueryContext ctx' q args
      = (w.getState ctx).Conn.QueryContext ctx q args) :
    ∀ c ∈ checks w, ∀ wh, c ctx' wh = c ctx wh := by
  intro c hc wh
  simp only [checks, List.mem_cons, List.mem_singleton, List.not_mem_nil, or_false] at hc
  rcases hc with rfl | rfl | rfl | rfl | rfl | rfl | rfl | rfl | rfl | rfl | rfl | rfl
  all_goals
    simp only [checkCondition1, checkCondition2, checkCondition3, checkCondition4,
      checkCondition5, checkCondition6, checkCondition7, checkCondition8, checkCondition9,
      checkCondition10, checkCondition11, checkCondition12, runCheck, h]

theorem check_pass_predicate_aux (w : Workloader) (ctx : Context) (wh : Int) (k : Nat)
    (hk1 : 1 ≤ k) (hk12 : k ≤ 12) (vals : List Float64)
    (hq : (w.getState ctx).Conn.QueryContext ctx (queryOf k) (argsOf k wh)
      = Except.ok ⟨vals.map Except.ok, none⟩)
    (v : Float64) (hv : vals.find? (fun v => decide (v.toRat? ≠ some 0)) = some v) :
    outcome (checks w) ctx wh k = some (violationOf w k wh v) := by
  rw [outcome_checks w ctx wh k hk1 hk12, runCheck_rows w ctx _ _ _ vals hq, hv]
  rfl

/-! ## Queries over tables -/

theorem Float64.normal_isZero (e m : Nat) : (Float64.normal e m).isZero = false := by
  unfold Float64.normal Float64.isZero
  split
  · rfl
  · have h : (1023 + e) % 2048 ≠ 0 := by omega
    simp [h]

theorem Float64.ofNat_isZero (n : Nat) : (Float64.ofNat n).isZero = true ↔ n = 0 := by
  unfold Float64.ofNat
  by_cases hn : n = 0
  · simp [hn, Float64.isZero, Float64.zero]
  · simp only [hn, if_false, iff_false, Bool.not_eq_true]
    split_ifs <;> exact Float64.normal_isZero _ _

theorem Float64.ne_ofNat_zero (n : Nat) :
    Float64.ne (Float64.ofNat n) Float64.zero = decide (n ≠ 0) := by
  rw [Float64.ne_zero_eq, Bool.eq_iff_iff]
  simp only [Bool.not_eq_true', decide_eq_true_eq, ne_eq, ← Float64.ofNat_isZero]
  cases (Float64.ofNat n).isZero <;> simp

theorem runCheck_count (w : Workloader) (ctx : Context) (query : String) (args : List Int)
    (violation : Float64 → String) (n : Nat)
    (hq : (w.getState ctx).Conn.QueryContext ctx query args
      = Except.ok ⟨[Except.ok (Float64.ofNat n)], none⟩) :
    runCheck w ctx query args violation
      = if n = 0 then none else some (violation (Float64.ofNat n)) := by
  unfold runCheck
  simp only [hq, scanRows, Float64.ne_ofNat_zero]
  by_cases hn : n = 0 <;> simp [hn]

theorem mem_leftJoin {α β : Type} (a : List α) (b : List β) (cond : α → β → Bool)
    (r : α × Option β) :
    r ∈ leftJoin a b cond ↔
      r.1 ∈ a ∧ ((r.2 = none ∧ b.any (cond r.1) = false) ∨
        (∃ y, r.2 = some y ∧ y ∈ b ∧ cond r.1 y = true)) := by
  unfold leftJoin
  rw [List.mem_flatMap]
  constructor
  · rintro ⟨x, hx, hr⟩
    cases hf : b.filter (cond x) with
    | nil =>
      rw [hf] at hr
      simp only [List.mem_singleton] at hr
      subst hr
      refine ⟨hx, Or.inl ⟨rfl, ?_⟩⟩
      rw [List.filter_eq_nil_iff] at hf
      rw [Bool.eq_false_iff]
      intro hany
      rw [List.any_eq_true] at hany
      obtain ⟨y, hy, hc⟩ := hany
      exact hf y hy hc
    | cons m ms =>
      rw [hf] at hr
      rw [List.mem_map] at hr
      obtain ⟨y, hy, rfl⟩ := hr
      rw [← hf, List.mem_filter] at hy
      exact ⟨hx, Or.inr ⟨y, rfl, hy.1, hy.2⟩⟩
  · rintro ⟨hx, h⟩
    refine ⟨r.1, hx, ?_⟩
    rcases h with ⟨h2, hany⟩ | ⟨y, h2, hy, hc⟩
    · have hf : b.filter (cond r.1) = [] := by
        rw [List.filter_eq_nil_iff]
        intro y hy hc
        have : b.any (cond r.1) = true := List.any_eq_true.mpr ⟨y, hy, hc⟩
        rw [hany] at this
        exact Bool.noConfusion this
      rw [hf]
      simp only [List.mem_singleton]
      exact Prod.ext rfl h2
    · have hmem : y ∈ b.filter (cond r.1) := List.mem_filter.mpr ⟨hy, hc⟩
      cases hf : b.filter (cond r.1) with
      | nil => rw [hf] at hmem; simp at hmem
      | cons m ms =>
        rw [hf] at hmem
        rw [List.mem_map]
        exact ⟨y, hmem, Prod.ext rfl h2.symm⟩

theorem on5_iff (o : OrderRow) (n : NewOrderRow) :
    on5 o n = true ↔ n.no_w_id = o.o_w_id ∧ n.no_d_id = o.o_d_id ∧ n.no_o_id = o.o_id := by
  unfold on5
  simp only [Bool.and_eq_true, decide_eq_true_eq]
  constructor
  · rintro ⟨⟨h1, h2⟩, h3⟩
    exact ⟨h1, h2.symm, h3.symm⟩
  · rintro ⟨h1, h2, h3⟩
    exact ⟨⟨h1, h2.symm⟩, h3.symm⟩

theorem hasNewOrder_eq_any_on5 (db : Database) (o : OrderRow) :
    hasNewOrder db o = db.new_order.any (on5 o) := by
  unfold hasNewOrder
  congr 1
  funext n
  rw [Bool.eq_iff_iff, on5_iff]
  simp

theorem query5_counts_order (db : Database) (wh : Int) (o : OrderRow) (ho : o ∈ db.orders) :
    (∃ r ∈ query5Rows db wh, r.1 = o) ↔
      o.o_w_id = wh ∧ xor o.o_carrier_id.isSome (hasNewOrder db o) = false := by
  rw [hasNewOrder_eq_any_on5]
  unfold query5Rows
  constructor
  · rintro ⟨r, hr, rfl⟩
    rw [List.mem_filter, mem_leftJoin] at hr
    obtain ⟨⟨_, hjoin⟩, hwhere⟩ := hr
    simp only [where5, Bool.and_eq_true, decide_eq_true_eq, Bool.or_eq_true] at hwhere
    refine ⟨hwhere.1, ?_⟩
    rcases hjoin with ⟨h2, hany⟩ | ⟨y, h2, hy, hc⟩
    · rw [hany]
      rcases hwhere.2 with ⟨hc, _⟩ | ⟨_, hn⟩
      · cases hcar : r.1.o_carrier_id <;> simp_all
      · simp [h2] at hn
    · have hany : db.new_order.any (on5 r.1) = true := List.any_eq_true.mpr ⟨y, hy, hc⟩
      rw [hany]
      rcases hwhere.2 with ⟨_, hn⟩ | ⟨hc, _⟩
      · simp [h2] at hn
      · cases hcar : r.1.o_carrier_id <;> simp_all
  · rintro ⟨hw, hx⟩
    cases hany : db.new_order.any (on5 o) with
    | false =>
      rw [hany] at hx
      refine ⟨(o, none), ?_, rfl⟩
      rw [List.mem_filter, mem_leftJoin]
      refine ⟨⟨ho, Or.inl ⟨rfl, hany⟩⟩, ?_⟩
      cases hcar : o.o_carrier_id <;> simp_all [where5]
    | true =>
      rw [hany] at hx
      obtain ⟨y, hy, hc⟩ := List.any_eq_true.mp hany
      refine ⟨(o, some y), ?_, rfl⟩
      rw [List.mem_filter, mem_leftJoin]
      refine ⟨⟨ho, Or.inr ⟨y, rfl, hy, hc⟩⟩, ?_⟩
      cases hcar : o.o_carrier_id <;> simp_all [where5]

theorem query5Count_eq_zero (db : Database) (wh : Int) :
    query5Count db wh = 0 ↔
      ∀ o ∈ db.orders, o.o_w_id = wh → xor o.o_carrier_id.isSome (hasNewOrder db o) = true := by
  unfold query5Count
  rw [List.length_eq_zero]
  constructor
  · intro h o ho hw
    cases hx : xor o.o_carrier_id.isSome (hasNewOrder db o) with
    | true => rfl
    | false =>
      obtain ⟨r, hr, _⟩ := (query5_counts_order db wh o ho).mpr ⟨hw, hx⟩
      rw [h] at hr
      simp at hr
  · intro h
    rw [List.eq_nil_iff_forall_not_mem]
    intro r hr
    have hr' := hr
    unfold query5Rows at hr'
    rw [List.mem_filter, mem_leftJoin] at hr'
    have ho := hr'.1.1
    have := (query5_counts_order db wh r.1 ho).mp ⟨r, hr, rfl⟩
    rw [h r.1 ho this.1] at this
    exact Bool.noConfusion this.2

theorem mem_innerJoin {α β : Type} (a : List α) (b : List β) (cond : α → β → Bool)
    (r : α × β) : r ∈ innerJoin a b cond ↔ r.1 ∈ a ∧ r.2 ∈ b ∧ cond r.1 r.2 = true := by
  unfold innerJoin
  rw [List.mem_flatMap]
  constructor
  · rintro ⟨x, hx, hr⟩
    rw [List.mem_map] at hr
    obtain ⟨y, hy, rfl⟩ := hr
    rw [List.mem_filter] at hy
    exact ⟨hx, hy.1, hy.2⟩
  · rintro ⟨h1, h2, h3⟩
    refine ⟨r.1, h1, ?_⟩
    rw [List.mem_map]
    exact ⟨r.2, List.mem_filter.mpr ⟨h2, h3⟩, rfl⟩

theorem orderLineCount_eq (db : Database) (o : OrderRow) :
    orderLineCount db o
      = (db.order_line.filter (fun l =>
          decide ((l.ol_w_id, l.ol_d_id, l.ol_o_id) = (o.o_w_id, o.o_d_id, o.o_id)))).length := by
  unfold orderLineCount
  congr 1
  apply List.filter_congr
  intro l _
  simp [Prod.ext_iff, Bool.and_assoc]

/-- Check 6 does detect an order whose declared line count differs from the
number of its order-line rows as soon as at least one such row exists. -/
theorem query6Count_pos_of_mismatch (db : Database) (wh : Int) (o : OrderRow)
    (ho : o ∈ db.orders) (hw : o.o_w_id = wh) (hpos : 0 < orderLineCount db o)
    (hne : o.o_ol_cnt ≠ (orderLineCount db o : Int)) : query6Count db wh ≠ 0 := by
  have hcount := orderLineCount_eq db o
  have hgroup : ((o.o_w_id, o.o_d_id, o.o_id), orderLineCount db o) ∈ query6Groups db := by
    unfold query6Groups groupBy
    rw [List.mem_map]
    refine ⟨((o.o_w_id, o.o_d_id, o.o_id), db.order_line.filter (fun l =>
      decide ((l.ol_w_id, l.ol_d_id, l.ol_o_id) = (o.o_w_id, o.o_d_id, o.o_id)))), ?_, ?_⟩
    · rw [List.mem_map]
      refine ⟨(o.o_w_id, o.o_d_id, o.o_id), ?_, rfl⟩
      rw [List.mem_dedup, List.mem_map]
      rw [hcount, List.length_pos] at hpos
      obtain ⟨l, hl⟩ := List.exists_mem_of_ne_nil _ hpos
      rw [List.mem_filter] at hl
      exact ⟨l, hl.1, by simpa using hl.2⟩
    · simp [hcount]
  have hrow : (o.o_ol_cnt, (orderLineCount db o : Int)) ∈ query6T db wh := by
    unfold query6T
    rw [List.mem_map]
    refine ⟨(o, ((o.o_w_id, o.o_d_id, o.o_id), orderLineCount db o)), ?_, rfl⟩
    rw [List.mem_filter, mem_innerJoin]
    exact ⟨⟨ho, hgroup, by simp⟩, by simp [hw]⟩
  unfold query6Count
  intro h0
  rw [List.length_eq_zero, List.filter_eq_nil_iff] at h0
  exact h0 _ hrow (by simpa using hne)

theorem floorLog2_spec (fuel n : Nat) (hfuel : n ≤ fuel) (hn : 1 ≤ n) :
    2 ^ floorLog2 fuel n ≤ n ∧ n < 2 ^ (floorLog2 fuel n + 1) := by
  induction fuel generalizing n with
  | zero => omega
  | succ f ih =>
    unfold floorLog2
    by_cases h2 : n < 2
    · rw [if_pos h2]
      simp only [pow_zero, zero_add, pow_one]
      omega
    · rw [if_neg h2]
      obtain ⟨h1, h3⟩ := ih (n / 2) (by omega) (by omega)
      rw [pow_succ, pow_succ]
      constructor <;> omega

/-- A count below `2^53` scans to the `float64` that denotes it exactly. -/
theorem Float64.toRat?_ofNat (n : Nat) (hn : n < 2 ^ 53) :
    (Float64.ofNat n).toRat? = some (n : ℚ) := by
  by_cases h0 : n = 0
  · subst h0
    simp [Float64.ofNat, Float64.zero, Float64.toRat?]
  · obtain ⟨hlo, hhi⟩ := floorLog2_spec n n (le_refl _) (by omega)
    have he : floorLog2 n n ≤ 52 := by
      by_contra hcon
      have : 2 ^ 53 ≤ 2 ^ floorLog2 n n := Nat.pow_le_pow_right (by norm_num) (by omega)
      omega
    have hmul : n * 2 ^ (52 - floorLog2 n n) < 2 ^ 53 := by
      have : 2 ^ (floorLog2 n n + 1) * 2 ^ (52 - floorLog2 n n) = 2 ^ 53 := by
        rw [← pow_add]
        congr 1
        omega
      calc n * 2 ^ (52 - floorLog2 n n)
          < 2 ^ (floorLog2 n n + 1) * 2 ^ (52 - floorLog2 n n) :=
            Nat.mul_lt_mul_of_pos_right hhi (by positivity)
        _ = 2 ^ 53 := this
    have hmul' : 2 ^ 52 ≤ n * 2 ^ (52 - floorLog2 n n) := by
      have : 2 ^ floorLog2 n n * 2 ^ (52 - floorLog2 n n) = 2 ^ 52 := by
        rw [← pow_add]
        congr 1
        omega
      calc 2 ^ 52 = 2 ^ floorLog2 n n * 2 ^ (52 - floorLog2 n n) := this.symm
        _ ≤ n * 2 ^ (52 - floorLog2 n n) := Nat.mul_le_mul_right _ hlo
    have hexp : (1023 + floorLog2 n n) % 2048 = 1023 + floorLog2 n n := by omega
    have hman : (n * 2 ^ (52 - floorLog2 n n) - 2 ^ 52) % 2 ^ 52
        = n * 2 ^ (52 - floorLog2 n n) - 2 ^ 52 := Nat.mod_eq_of_lt (by omega)
    have h1024 : ¬ 1024 ≤ floorLog2 n n := by omega
    simp only [Float64.ofNat, h0, if_false, he, if_true, Float64.normal, h1024,
      Float64.toRat?, hexp, hman]
    rw [if_neg (by omega), if_neg (by omega)]
    simp only [Bool.false_eq_true, if_false, one_mul, Option.some.injEq]
    have hsum : 2 ^ 52 + (n * 2 ^ (52 - floorLog2 n n) - 2 ^ 52)
        = n * 2 ^ (52 - floorLog2 n n) := by omega
    rw [hsum]
    push_cast
    have hadd : 52 - floorLog2 n n + (1023 + floorLog2 n n) = 1075 := by omega
    have hpow : (2 : ℚ) ^ (52 - floorLog2 n n) * 2 ^ (1023 + floorLog2 n n) = 2 ^ 1075 := by
      rw [← pow_add, hadd]
    rw [mul_assoc, hpow]
    exact mul_div_cancel_right₀ _ (pow_ne_zero _ (by norm_num))

theorem checkLoop_endless (wh : Int) :
    checkLoop liveContext wh (checks endlessWorkloader) 0 = none := by
  simp [checks, checkLoop, checkCondition1, checkCondition2, checkCondition3,
    checkCondition4, checkCondition5, checkCondition6, checkCondition7, checkCondition8,
    checkCondition9, checkCondition10, checkCondition11, checkCondition12, runCheck,
    endlessWorkloader, emptyConn, liveContext, scanRows]

theorem sweep_never_ends (fuel : Nat) (i : Int) (hev : i % 2 = 0) (h1 : -2 ^ 63 ≤ i)
    (h2 : i < 2 ^ 63) :
    sweep (checks endlessWorkloader) liveContext 2 maxInt fuel i = none := by
  have hlt : i < maxInt := by
    unfold maxInt
    omega
  have hne : maxInt ≠ 0 := by
    unfold maxInt
    norm_num
  induction fuel generalizing i with
  | zero => simp [sweep, hlt]
  | succ n ih =>
    have hnext : sweep (checks endlessWorkloader) liveContext 2 maxInt n (wrapInt (i + 2))
        = none := by
      apply ih
      · unfold wrapInt
        omega
      · unfold wrapInt
        omega
      · unfold wrapInt
        omega
      · unfold wrapInt maxInt
        omega
    simp only [sweep, hlt, hne, if_true, if_false, checkLoop_endless, hnext]

/-- Without the bound on `Threads + Warehouses` a run need not return: with 2
threads over `2^63 - 1` warehouses and every check passing, the counter of
thread 0 stays even, wraps around at `2^63` and never reaches `2^63 - 1`. -/
theorem Check_never_returns : Check endlessWorkloader liveContext 0 = none := by
  have h := sweep_never_ends iterationBound 0 (by decide) (by norm_num) (by norm_num)
  unfold Check
  rw [if_neg (by decide)]
  exact h

/-! ## Partition of the warehouses among the threads -/

/-- C1 (as amended). Partition completeness of the warehouse loop of `Check`:
with `Threads ≥ 1` and `Threads + Warehouses ≤ 2^63` (the loop counter never
wraps around; any `Warehouses`, in particular `Warehouses ≥ 1`), every id in
`1..Warehouses` is visited by exactly one thread index in `[0, Threads)` and
exactly once by that thread, and no thread visits an id outside
`1..Warehouses`. -/
theorem partition_complete (cfg : Config) (hT : 1 ≤ cfg.Threads)
    (hb : cfg.Threads + cfg.Warehouses ≤ 2 ^ 63) :
    (∀ id : Int, 1 ≤ id → id ≤ cfg.Warehouses →
      ∃ t : Int, 0 ≤ t ∧ t < cfg.Threads ∧ (visits cfg t).count id = 1 ∧
        ∀ t' : Int, 0 ≤ t' → t' < cfg.Threads → id ∈ visits cfg t' → t' = t) ∧
    (∀ t id : Int, 0 ≤ t → t < cfg.Threads → id ∈ visits cfg t →
      1 ≤ id ∧ id ≤ cfg.Warehouses) := by
  have hTpos : 0 < cfg.Threads := by omega
  constructor
  · intro id h1 h2
    have hm0 : 0 ≤ (id - 1) % cfg.Threads := Int.emod_nonneg _ (by omega)
    have hmT : (id - 1) % cfg.Threads < cfg.Threads := Int.emod_lt_of_pos _ hTpos
    have hq0 : 0 ≤ (id - 1) / cfg.Threads := Int.ediv_nonneg (by omega) (by omega)
    have hdecomp : (id - 1) % cfg.Threads + cfg.Threads * ((id - 1) / cfg.Threads) = id - 1 :=
      Int.emod_add_ediv _ _
    refine ⟨(id - 1) % cfg.Threads, hm0, hmT, ?_, ?_⟩
    · apply List.count_eq_one_of_mem (visits_nodup cfg _ hT hb hm0 hmT)
      rw [mem_visits cfg _ hT hb hm0 hmT]
      refine ⟨((id - 1) / cfg.Threads).toNat, ?_, ?_⟩
      · rw [Int.toNat_of_nonneg hq0]
        nlinarith
      · rw [Int.toNat_of_nonneg hq0]
        linarith [mul_comm cfg.Threads ((id - 1) / cfg.Threads)]
    · intro t' h0 hlt hmem
      rw [mem_visits cfg _ hT hb h0 hlt] at hmem
      obtain ⟨k, _, hk⟩ := hmem
      have : id - 1 = t' + k * cfg.Threads := by omega
      rw [this, Int.add_mul_emod_self, Int.emod_eq_of_lt h0 hlt]
  · intro t id h0 hlt hmem
    rw [mem_visits cfg _ hT hb h0 hlt] at hmem
    obtain ⟨k, hk1, hk2⟩ := hmem
    have : 0 ≤ (k : Int) * cfg.Threads := by positivity
    omega

/-- Instance of the amended C1 with 3 threads and 10 warehouses. -/
theorem partition_complete_witness :
    ((1 : Int) ≤ 3 ∧ (3 : Int) + 10 ≤ 2 ^ 63) ∧
    (∀ id : Int, 1 ≤ id → id ≤ 10 →
      ∃ t : Int, 0 ≤ t ∧ t < 3 ∧ (visits ⟨3, 10⟩ t).count id = 1 ∧
        ∀ t' : Int, 0 ≤ t' → t' < 3 → id ∈ visits ⟨3, 10⟩ t' → t' = t) ∧
    (∀ t id : Int, 0 ≤ t → t < 3 → id ∈ visits ⟨3, 10⟩ t → 1 ≤ id ∧ id ≤ 10) :=
  ⟨by decide, partition_complete ⟨3, 10⟩ (by decide) (by decide)⟩

/-- C1 as stated fails: with `2^63 - 1` threads over 10 warehouses the counter
of thread 5 wraps around after its first round, and the thread goes on to visit
the ids -3, 4, -5, 2, -7 and 0.  The ids -3, -5, -7 and 0 lie outside `1..10`,
and id 4 is visited by thread 3 as well as by thread 5. -/
theorem partition_fails_on_wraparound :
    ((1 : Int) ≤ wideWorkloader.cfg.Threads ∧ (1 : Int) ≤ wideWorkloader.cfg.Warehouses) ∧
    visits wideWorkloader.cfg 5 = [6, -3, 4, -5, 2, -7, 0] ∧
    visits wideWorkloader.cfg 3 = [4, -5, 2, -7, 0] ∧
    ((0 : Int) ≤ 3 ∧ (3 : Int) < wideWorkloader.cfg.Threads ∧
      (0 : Int) ≤ 5 ∧ (5 : Int) < wideWorkloader.cfg.Threads) ∧
    ((4 : Int) ∈ visits wideWorkloader.cfg 3 ∧ (4 : Int) ∈ visits wideWorkloader.cfg 5) ∧
    ((-3 : Int) ∈ visits wideWorkloader.cfg 5 ∧ ¬ (1 : Int) ≤ -3) := by
  decide

/-- C4 (as amended). Strided assignment in closed form: for `Threads ≥ 1`,
`Threads + Warehouses ≤ 2^63` (the loop counter never wraps around), `t` in
`[0, Threads)` and any `Warehouses` (in particular `Warehouses ≥ 1`), the
warehouses visited are `((t + k*Threads) mod Warehouses) + 1` for
`k = 0, 1, ...` while `t + k*Threads < Warehouses`, that is
`t+1, t+1+Threads, ...`; the sequence is strictly ascending; it is empty exactly
when `t ≥ Warehouses`, and then `Check` returns `nil` without calling any
check.  When no check fails the calls made are those of the sweep over exactly
these warehouses. -/
theorem strided_assignment (w : Workloader) (ctx : Context) (t : Int)
    (hT : 1 ≤ w.cfg.Threads) (hb : w.cfg.Threads + w.cfg.Warehouses ≤ 2 ^ 63)
    (ht0 : 0 ≤ t) (htT : t < w.cfg.Threads) :
    visits w.cfg t = assigned w.cfg t ∧
    visits w.cfg t
      = (List.range (visitCount w.cfg t)).map
          (fun k : Nat => (t + k * w.cfg.Threads) % w.cfg.Warehouses + 1) ∧
    (∀ k : Nat, k < visitCount w.cfg t ↔ t + k * w.cfg.Threads < w.cfg.Warehouses) ∧
    visits w.cfg t
      = (List.range (visitCount w.cfg t)).map (fun k : Nat => t + 1 + k * w.cfg.Threads) ∧
    (visits w.cfg t).Sorted (fun a b => a < b) ∧
    (visits w.cfg t = [] ↔ w.cfg.Warehouses ≤ t) ∧
    (w.cfg.Warehouses ≤ t → CheckTrace w ctx t = (some none, []) ∧ Check w ctx t = some none) ∧
    ((∀ p ∈ sweepOrder (visits w.cfg t) 12, failing (checks w) ctx p = false) →
      (CheckTrace w ctx t).2 = sweepOrder (visits w.cfg t) 12) := by
  have hcount := fun k => visitCount_lt_iff w.cfg.Threads w.cfg.Warehouses t hT k
  have hv := visits_eq w.cfg t hT hb ht0 htT
  have ha : visits w.cfg t = assigned w.cfg t := by
    rw [hv, assigned_eq w.cfg t hT ht0]
  have hempty : visits w.cfg t = [] ↔ w.cfg.Warehouses ≤ t := by
    rw [hv, List.map_eq_nil_iff, List.range_eq_nil]
    constructor
    · intro h0
      have := (hcount 0)
      unfold visitCount at h0
      rw [h0] at this
      simp at this
      exact this
    · intro hle
      have := (hcount 0)
      unfold visitCount
      simp only [Nat.cast_zero, zero_mul, add_zero] at this
      omega
  refine ⟨ha, ha, hcount, ?_, visits_sorted w.cfg t hT hb ht0 htT, hempty, ?_, ?_⟩
  · rw [hv]
    apply List.map_congr_left
    intro k _
    ring
  · intro hle
    have htr : CheckTrace w ctx t = (some none, []) := by
      rw [CheckTrace_eq w ctx t hT hb ht0 htT, hempty.mpr hle]
      rfl
    refine ⟨htr, ?_⟩
    rw [← CheckTrace_fst, htr]
  · intro hall
    rw [CheckTrace_eq w ctx t hT hb ht0 htT]
    simp only [runPairs_trace]
    exact upToFirst_eq_self _ _ hall

/-- Instance of the amended C4: thread 1 of 3 over 10 warehouses visits 2, 5
and 8. -/
theorem strided_assignment_witness :
    ((1 : Int) ≤ 3 ∧ (3 : Int) + 10 ≤ 2 ^ 63 ∧ (0 : Int) ≤ 1 ∧ (1 : Int) < 3) ∧
    visits sampleWorkloader.cfg 1 = assigned sampleWorkloader.cfg 1 ∧
    assigned sampleWorkloader.cfg 1 = [2, 5, 8] :=
  ⟨by decide,
    (strided_assignment sampleWorkloader liveContext 1 (by decide) (by decide) (by decide)
      (by decide)).1,
    by decide⟩

/-- C4 as stated fails: with `2^63 - 1` threads over 10 warehouses the closed
form gives thread 5 the single id 6, while the loop, whose counter wraps
around, visits 6, -3, 4, -5, 2, -7, 0, a sequence that is not ascending. -/
theorem strided_form_fails_on_wraparound :
    ((1 : Int) ≤ wideWorkloader.cfg.Threads ∧ (1 : Int) ≤ wideWorkloader.cfg.Warehouses ∧
      (0 : Int) ≤ 5 ∧ (5 : Int) < wideWorkloader.cfg.Threads) ∧
    assigned wideWorkloader.cfg 5 = [6] ∧
    (List.range (visitCount wideWorkloader.cfg 5)).map
        (fun k : Nat => (5 : Int) + 1 + k * wideWorkloader.cfg.Threads) = [6] ∧
    visits wideWorkloader.cfg 5 = [6, -3, 4, -5, 2, -7, 0] ∧
    visits wideWorkloader.cfg 5 ≠ assigned wideWorkloader.cfg 5 ∧
    ¬ (visits wideWorkloader.cfg 5).Sorted (fun a b => a < b) := by
  decide

/-! ## Return value and fail-fast behaviour of `Check` -/

/-- C2 (as amended). Return value of `Check`: for `Threads ≥ 1`,
`Threads + Warehouses ≤ 2^63` (the loop counter never wraps around), a thread
index in `[0, Threads)`, any `Warehouses` and any behaviour of the twelve
checks, the warehouses visited are those of the strided assignment, and `Check`
returns; it returns `nil` if and only if each of the twelve checks passes on
every warehouse assigned to the thread; otherwise it returns the error
`check condition k failed <err>`, where `(warehouse, k)` is the first failing
pair of the sweep order (assigned warehouses in visit order, checks `1..12`
ascending within each) and `<err>` is the error of check `k` on that
warehouse. -/
theorem check_return_value (w : Workloader) (ctx : Context) (t : Int)
    (hT : 1 ≤ w.cfg.Threads) (hb : w.cfg.Threads + w.cfg.Warehouses ≤ 2 ^ 63)
    (ht0 : 0 ≤ t) (htT : t < w.cfg.Threads) :
    visits w.cfg t = assigned w.cfg t ∧
    (Check w ctx t = some none ↔
      ∀ wh ∈ assigned w.cfg t, ∀ k : Nat, 1 ≤ k → k ≤ 12 →
        outcome (checks w) ctx wh k = none) ∧
    (Check w ctx t ≠ some none →
      ∃ wh k e,
        (sweepOrder (assigned w.cfg t) 12).find? (failing (checks w) ctx) = some (wh, k) ∧
        outcome (checks w) ctx wh k = some e ∧
        Check w ctx t = some (some ("check condition " ++ fmtD (k : Int) ++ " failed " ++ e))) := by
  have ha : visits w.cfg t = assigned w.cfg t := by
    rw [visits_eq w.cfg t hT hb ht0 htT, assigned_eq w.cfg t hT ht0]
  refine ⟨ha, ?_⟩
  rw [← ha]
  have hC : Check w ctx t
      = some ((runPairs (outcome (checks w) ctx) (sweepOrder (visits w.cfg t) 12)).1) := by
    rw [← CheckTrace_fst, CheckTrace_eq w ctx t hT hb ht0 htT]
  rw [hC, runPairs_result]
  have hpred : (fun p : Int × Nat => (outcome (checks w) ctx p.1 p.2).isSome)
      = failing (checks w) ctx := rfl
  rw [hpred]
  constructor
  · constructor
    · intro h wh hwh k hk1 hk12
      cases hfind : (sweepOrder (visits w.cfg t) 12).find? (failing (checks w) ctx) with
      | none =>
        rw [List.find?_eq_none] at hfind
        have := hfind (wh, k) ((mem_sweepOrder _ _ _).mpr ⟨hwh, hk1, hk12⟩)
        simpa [failing] using this
      | some p =>
        have hp := List.find?_some hfind
        rw [hfind] at h
        unfold failing at hp
        cases ho : outcome (checks w) ctx p.1 p.2 with
        | none => simp [ho] at hp
        | some e => simp [ho] at h
    · intro h
      have hfind : (sweepOrder (visits w.cfg t) 12).find? (failing (checks w) ctx) = none := by
        rw [List.find?_eq_none]
        intro p hp
        rw [mem_sweepOrder] at hp
        simp [failing, h p.1 hp.1 p.2 hp.2.1 hp.2.2]
      rw [hfind]
      rfl
  · intro hne
    cases hfind : (sweepOrder (visits w.cfg t) 12).find? (failing (checks w) ctx) with
    | none => rw [hfind] at hne; exact absurd rfl hne
    | some p =>
      have hp := List.find?_some hfind
      unfold failing at hp
      cases ho : outcome (checks w) ctx p.1 p.2 with
      | none => simp [ho] at hp
      | some e =>
        refine ⟨p.1, p.2, e, rfl, ho, ?_⟩
        simp [ho, wrapped]

set_option maxRecDepth 100000 in
/-- Instance of the amended C2 with a failing check: one thread, one warehouse,
condition 3 violated. -/
theorem check_return_value_witness :
    ((1 : Int) ≤ 1 ∧ (1 : Int) + 1 ≤ 2 ^ 63 ∧ (0 : Int) ≤ 0 ∧ (0 : Int) < 1) ∧
    Check (rowWorkloader query3 Float64.one) liveContext 0 ≠ some none ∧
    (∃ wh k e,
      (sweepOrder (assigned (rowWorkloader query3 Float64.one).cfg 0) 12).find?
          (failing (checks (rowWorkloader query3 Float64.one)) liveContext) = some (wh, k) ∧
      outcome (checks (rowWorkloader query3 Float64.one)) liveContext wh k = some e ∧
      Check (rowWorkloader query3 Float64.one) liveContext 0
        = some (some ("check condition " ++ fmtD (k : Int) ++ " failed " ++ e))) :=
  ⟨by decide, by decide,
    (check_return_value (rowWorkloader query3 Float64.one) liveContext 0 (by decide)
      (by decide) (by decide) (by decide)).2.2 (by decide)⟩

set_option maxRecDepth 100000 in
/-- C2 as stated fails: with `2^63 - 1` threads over 10 warehouses thread 5 is
assigned warehouse 6 only, and every one of the twelve checks passes on
warehouse 6; but the loop counter wraps around, the loop goes on to warehouses
-3 and 4, and `Check` returns the error of check 1 on warehouse 4, whose
condition 1 is violated. -/
theorem check_fails_on_unassigned_warehouse :
    ((1 : Int) ≤ (wideBadWorkloader 4).cfg.Threads ∧
      (0 : Int) ≤ 5 ∧ (5 : Int) < (wideBadWorkloader 4).cfg.Threads) ∧
    assigned (wideBadWorkloader 4).cfg 5 = [6] ∧
    (∀ c ∈ checks (wideBadWorkloader 4), c liveContext 6 = none) ∧
    Check (wideBadWorkloader 4) liveContext 5
      = some (some "check condition 1 failed sum(d_ytd) - max(w_ytd) should be 0 in warehouse 4, but got 1.000000") := by
  decide

/-- C3 (as amended). Fail-fast: for `Threads ≥ 1`,
`Threads + Warehouses ≤ 2^63` (the loop counter never wraps around) and a
thread index in `[0, Threads)`, the sequence of `(warehouse, check number)`
evaluations that `Check` performs is exactly the sweep order (assigned
warehouses in visit order, checks `1..12` ascending within each) cut after its
first failing pair; it is a prefix of the sweep order, nothing follows a failing
pair in it, and no pair occurs twice.  A pair fails when its check returns an
error of any kind. -/
theorem fail_fast (w : Workloader) (ctx : Context) (t : Int)
    (hT : 1 ≤ w.cfg.Threads) (hb : w.cfg.Threads + w.cfg.Warehouses ≤ 2 ^ 63)
    (ht0 : 0 ≤ t) (htT : t < w.cfg.Threads) :
    (CheckTrace w ctx t).1 = Check w ctx t ∧
    visits w.cfg t = assigned w.cfg t ∧
    (CheckTrace w ctx t).2
      = upToFirst (failing (checks w) ctx) (sweepOrder (assigned w.cfg t) 12) ∧
    (CheckTrace w ctx t).2 <+: sweepOrder (assigned w.cfg t) 12 ∧
    (∀ l₁ l₂ p, (CheckTrace w ctx t).2 = l₁ ++ p :: l₂ →
      (outcome (checks w) ctx p.1 p.2).isSome = true → l₂ = []) ∧
    (CheckTrace w ctx t).2.Nodup := by
  have ha : visits w.cfg t = assigned w.cfg t := by
    rw [visits_eq w.cfg t hT hb ht0 htT, assigned_eq w.cfg t hT ht0]
  have htr : (CheckTrace w ctx t).2
      = upToFirst (failing (checks w) ctx) (sweepOrder (assigned w.cfg t) 12) := by
    rw [← ha, CheckTrace_eq w ctx t hT hb ht0 htT]
    exact runPairs_trace _ _
  have hpre : (CheckTrace w ctx t).2 <+: sweepOrder (assigned w.cfg t) 12 := by
    rw [htr]
    exact upToFirst_isPrefix _ _
  refine ⟨CheckTrace_fst w ctx t, ha, htr, hpre, ?_, ?_⟩
  · intro l₁ l₂ p h hp
    rw [htr] at h
    exact upToFirst_stops _ _ _ _ _ h hp
  · rw [← ha] at hpre
    exact (sweepOrder_nodup _ 12 (visits_nodup w.cfg t hT hb ht0 htT)).sublist hpre.sublist

set_option maxRecDepth 100000 in
/-- Instance of the amended C3 with a failing check: one thread, one warehouse,
condition 3 violated; checks 1, 2 and 3 are evaluated on warehouse 1 and
nothing after them. -/
theorem fail_fast_witness :
    ((1 : Int) ≤ 1 ∧ (1 : Int) + 1 ≤ 2 ^ 63 ∧ (0 : Int) ≤ 0 ∧ (0 : Int) < 1) ∧
    (CheckTrace (rowWorkloader query3 Float64.one) liveContext 0).2
      = [(1, 1), (1, 2), (1, 3)] :=
  ⟨by decide,
    (fail_fast (rowWorkloader query3 Float64.one) liveContext 0 (by decide) (by decide)
      (by decide) (by decide)).2.2.1.trans (by decide)⟩

set_option maxRecDepth 100000 in
/-- C3 as stated fails: with `2^63 - 1` threads over 10 warehouses thread 5 is
assigned warehouse 6 only and no check fails on it, so the sweep order cut
after its first failing pair is the twelve checks of warehouse 6; but the loop
counter wraps around and `Check` goes on to evaluate the twelve checks of
warehouse -3 and check 1 of warehouse 4. -/
theorem evaluations_continue_on_wraparound :
    ((1 : Int) ≤ (wideBadWorkloader 4).cfg.Threads ∧
      (0 : Int) ≤ 5 ∧ (5 : Int) < (wideBadWorkloader 4).cfg.Threads) ∧
    upToFirst (failing (checks (wideBadWorkloader 4)) liveContext)
        (sweepOrder (assigned (wideBadWorkloader 4).cfg 5) 12)
      = sweepOrder [6] 12 ∧
    (CheckTrace (wideBadWorkloader 4) liveContext 5).2
      = sweepOrder [6] 12 ++ sweepOrder [-3] 12 ++ [(4, 1)] ∧
    (CheckTrace (wideBadWorkloader 4) liveContext 5).2
      ≠ upToFirst (failing (checks (wideBadWorkloader 4)) liveContext)
          (sweepOrder (assigned (wideBadWorkloader 4).cfg 5) 12) := by
  decide

/-! ## Pass/fail predicate and error content of a check -/

/-- C5 (as amended). Pass/fail predicate of each check: for each check number
`k` in `1..12` and every warehouse, when the query executes and every returned
row scans without error, the check passes if and only if the value of every
returned row is exactly 0 and `rows.Err()` reports no error once the rows are
exhausted; a non-zero value is reported for the first non-zero row in row
order; and when every row is 0, in particular when there is no row, the check
returns `rows.Err()`, so it passes exactly when that is `nil`. -/
theorem check_pass_predicate (w : Workloader) (ctx : Context) (wh : Int) (k : Nat)
    (hk1 : 1 ≤ k) (hk12 : k ≤ 12) (vals : List Float64) (err : Option String)
    (hq : (w.getState ctx).Conn.QueryContext ctx (queryOf k) (argsOf k wh)
      = Except.ok ⟨vals.map Except.ok, err⟩) :
    (outcome (checks w) ctx wh k = none ↔ (∀ v ∈ vals, v.toRat? = some 0) ∧ err = none) ∧
    (∀ v, vals.find? (fun v => decide (v.toRat? ≠ some 0)) = some v →
      outcome (checks w) ctx wh k = some (violationOf w k wh v)) ∧
    ((∀ v ∈ vals, v.toRat? = some 0) → outcome (checks w) ctx wh k = err) := by
  rw [outcome_checks w ctx wh k hk1 hk12, runCheck_rows_err w ctx _ _ _ vals err hq]
  have hnone : vals.find? (fun v => decide (v.toRat? ≠ some 0)) = none ↔
      ∀ v ∈ vals, v.toRat? = some 0 := by
    rw [List.find?_eq_none]
    simp
  refine ⟨?_, ?_, ?_⟩
  · cases hf : vals.find? (fun v => decide (v.toRat? ≠ some 0)) with
    | none =>
      have hall := hnone.mp hf
      simp only [Option.map_none', Option.none_or]
      exact ⟨fun h => ⟨hall, h⟩, fun h => h.2⟩
    | some v =>
      have hne : ¬ ∀ v ∈ vals, v.toRat? = some 0 := fun h => by
        rw [hnone.mpr h] at hf
        exact Option.noConfusion hf
      simp [hne]
  · intro v hv
    rw [hv]
    rfl
  · intro h
    rw [hnone.mpr h]
    rfl

/-- C6 (as amended). Content of an invariant-violation error: when `(wh, k)` is
the first failing pair of the sweep and check `k` fails on the value `v` of
its first non-zero row, `Check` returns `check condition k failed <text>`,
where for `k` other than 6 and 11 the text is the check's description, the
warehouse id and `, but got ` followed by the `%f` rendering of `v`, and for
`k = 6` and `k = 11` the text is the check's description and the warehouse id
only. -/
theorem violation_error_content (w : Workloader) (ctx : Context) (t : Int) (wh : Int)
    (k : Nat) (vals : List Float64) (v : Float64)
    (hfirst : (sweepOrder (visits w.cfg t) 12).find? (failing (checks w) ctx) = some (wh, k))
    (hq : (w.getState ctx).Conn.QueryContext ctx (queryOf k) (argsOf k wh)
      = Except.ok ⟨vals.map Except.ok, none⟩)
    (hv : vals.find? (fun v => decide (v.toRat? ≠ some 0)) = some v) :
    Check w ctx t
      = some (some ("check condition " ++ fmtD (k : Int) ++ " failed " ++
          (if k = 6 ∨ k = 11 then violationText k ++ fmtD wh
           else violationText k ++ fmtD wh ++ ", but got " ++ w.fmtF v))) := by
  obtain ⟨_, hk1, hk12, _⟩ := first_failure_spec w ctx _ wh k hfirst
  have hout := (check_pass_predicate_aux w ctx wh k hk1 hk12 vals hq v hv)
  rw [violationOf_eq w k wh v hk1 hk12] at hout
  exact Check_first_failure w ctx t wh k _ hfirst hout

/-- Instance of the amended C5: check 11 over a cursor whose only row holds the
smallest positive `float64`. -/
theorem check_pass_predicate_witness :
    ((1 ≤ 11 ∧ 11 ≤ 12) ∧
      ((rowWorkloader query11 Float64.tiny).getState liveContext).Conn.QueryContext
          liveContext (queryOf 11) (argsOf 11 1)
        = Except.ok ⟨[Float64.tiny].map Except.ok, none⟩) ∧
    (outcome (checks (rowWorkloader query11 Float64.tiny)) liveContext 1 11 = none ↔
      (∀ v ∈ [Float64.tiny], v.toRat? = some 0) ∧ (none : Option String) = none) :=
  ⟨⟨by decide, by simp [rowWorkloader, rowConn, queryOf, argsOf]⟩,
    (check_pass_predicate (rowWorkloader query11 Float64.tiny) liveContext 1 11 (by decide)
      (by decide) [Float64.tiny] none (by simp [rowWorkloader, rowConn, queryOf, argsOf])).1⟩

set_option maxRecDepth 100000 in
/-- C5 as stated fails: the queries of checks 1 and 11 execute and return zero
rows, so no row fails to scan and no row is non-zero, but `rows.Err()` reports
an error and both checks fail with it. -/
theorem zero_rows_check_fails :
    (truncatedWorkloader.getState liveContext).Conn.QueryContext liveContext query1 [1]
      = Except.ok ⟨[], some "unexpected EOF"⟩ ∧
    checkCondition1 truncatedWorkloader liveContext 1 = some "unexpected EOF" ∧
    (truncatedWorkloader.getState liveContext).Conn.QueryContext liveContext query11 [1]
      = Except.ok ⟨[], some "unexpected EOF"⟩ ∧
    checkCondition11 truncatedWorkloader liveContext 1 = some "unexpected EOF" :=
  ⟨rfl, by decide, rfl, by decide⟩

set_option maxRecDepth 100000 in
/-- C6 as stated fails: check 6 on warehouse 1 violated with observed value 1.0
and with observed value 2.0 (which `%f` renders differently) gives one and the
same error, which does not contain the observed value. -/
theorem violation6_message_ignores_value :
    Float64.one ≠ Float64.two ∧
    Float64.ne Float64.one Float64.zero = true ∧
    Float64.ne Float64.two Float64.zero = true ∧
    (rowWorkloader query6 Float64.one).fmtF Float64.one
      ≠ (rowWorkloader query6 Float64.two).fmtF Float64.two ∧
    Check (rowWorkloader query6 Float64.one) liveContext 0
      = Check (rowWorkloader query6 Float64.two) liveContext 0 ∧
    Check (rowWorkloader query6 Float64.one) liveContext 0
      = some (some "check condition 6 failed all of O_OL_CNT - count(order_line) for the corresponding order defined by (O_W_ID, O_D_ID, O_ID) = (OL_W_ID, OL_D_ID, OL_O_ID) should be 0 in warehouse 1") := by
  decide

set_option maxRecDepth 100000 in
/-- Instance of the amended C6: check 1 violated on warehouse 1 with observed
value 1.0. -/
theorem violation_error_content_witness :
    (sweepOrder (visits (rowWorkloader query1 Float64.one).cfg 0) 12).find?
        (failing (checks (rowWorkloader query1 Float64.one)) liveContext) = some (1, 1) ∧
    Check (rowWorkloader query1 Float64.one) liveContext 0
      = some (some ("check condition " ++ fmtD ((1 : Nat) : Int) ++ " failed " ++
          (if 1 = 6 ∨ 1 = 11 then violationText 1 ++ fmtD 1
           else violationText 1 ++ fmtD 1 ++ ", but got "
            ++ (rowWorkloader query1 Float64.one).fmtF Float64.one))) :=
  ⟨by decide,
    violation_error_content (rowWorkloader query1 Float64.one) liveContext 0 1 1
      [Float64.one] Float64.one (by decide)
      (by simp [rowWorkloader, rowConn, queryOf, argsOf])
      (by
        have h : decide (Float64.one.toRat? ≠ some 0) = true := by
          rw [decide_eq_true_iff, ← Float64.ne_zero_iff]
          decide
        simp [List.find?, h])⟩

/-! ## Cancellation -/

/-- C7 (as amended). `Check` never inspects the cancellation signal itself; the
context only reaches the queries.  Its result depends on the context only
through the results of the queries; a thread with no assigned warehouse
returns `nil` whatever the state of the context; and when the first failing
pair `(wh, k)` fails because its query returns an error `e` (for instance the
context's error after cancellation), `Check` returns
`check condition k failed Exec <query> failed e`, the wrapping of every query
execution error. -/
theorem cancellation_only_through_queries (w : Workloader) (ctx : Context) (t : Int)
    (hT : 1 ≤ w.cfg.Threads) (ht0 : 0 ≤ t) (htT : t < w.cfg.Threads) :
    (∀ ctx' : Context,
      (∀ q args, (w.getState ctx').Conn.QueryContext ctx' q args
        = (w.getState ctx).Conn.QueryContext ctx q args) →
      Check w ctx' t = Check w ctx t) ∧
    (w.cfg.Warehouses ≤ t → Check w ctx t = some none) ∧
    (∀ wh k e,
      (sweepOrder (visits w.cfg t) 12).find? (failing (checks w) ctx) = some (wh, k) →
      (w.getState ctx).Conn.QueryContext ctx (queryOf k) (argsOf k wh) = Except.error e →
      Check w ctx t
        = some (some ("check condition " ++ fmtD (k : Int) ++ " failed " ++
            ("Exec " ++ queryOf k ++ " failed " ++ e)))) := by
  refine ⟨?_, ?_, ?_⟩
  · intro ctx' h
    unfold Check
    split
    · rfl
    · exact sweep_congr _ _ _ _ _ _ _ (checks_congr w ctx ctx' h)
  · intro hle
    have hne : w.cfg.Threads ≠ 0 := by omega
    unfold Check
    rw [if_neg hne, startIndex_eq w.cfg t hT ht0 htT]
    exact sweep_not_entered _ _ _ _ _ _ (by omega)
  · intro wh k e hfirst hq
    obtain ⟨_, hk1, hk12, _⟩ := first_failure_spec w ctx _ wh k hfirst
    have hout : outcome (checks w) ctx wh k = some ("Exec " ++ queryOf k ++ " failed " ++ e) := by
      rw [outcome_checks w ctx wh k hk1 hk12]
      exact runCheck_exec_error w ctx _ _ _ e hq
    exact Check_first_failure w ctx t wh k _ hfirst hout

set_option maxRecDepth 100000 in
/-- C7 as stated fails: with the context already cancelled, thread 1 of 2 over
a single warehouse returns `nil`, not a cancellation error; and where a query
does report the cancellation (thread 0 of the sample workloader), the error
`Check` returns is the one it returns on a live context when the query fails to
execute with the same error text. -/
theorem cancelled_check_returns_nil :
    cancelledContext.cancelled = true ∧
    Check idleWorkloader cancelledContext 1 = some none ∧
    liveContext.cancelled = false ∧
    Check sampleWorkloader cancelledContext 0
      = Check (downWorkloader "context canceled") liveContext 0 := by
  decide

set_option maxRecDepth 100000 in
/-- Instance of the amended C7: thread 0 of the sample workloader on a
cancelled context returns the context's error wrapped as the execution error
of check 1. -/
theorem cancellation_only_through_queries_witness :
    ((1 : Int) ≤ 3 ∧ (0 : Int) ≤ 0 ∧ (0 : Int) < 3) ∧
    Check sampleWorkloader cancelledContext 0
      = some (some ("check condition " ++ fmtD ((1 : Nat) : Int) ++ " failed " ++
          ("Exec " ++ queryOf 1 ++ " failed " ++ "context canceled"))) :=
  ⟨by decide,
    (cancellation_only_through_queries sampleWorkloader cancelledContext 0 (by decide)
      (by decide) (by decide)).2.2 1 1 "context canceled" (by decide) (by rfl)⟩

/-! ## Checks 5, 4 and 6, and the encoding of check 2 -/

/-- C8. Check 5 (delivery consistency): over any tables, the row filter of
query 5 counts an order of the warehouse if and only if it is not the case
that exactly one of "has a carrier id" and "has a matching new-order row"
holds (the "both" and the "neither" orders, no others); hence, on a connection
that answers query 5 with this count, check 5 passes if and only if exactly
one of the two holds for every order of the warehouse, and an order with a
carrier id whose new-order row is still present makes check 5 fail. -/
theorem check5_delivery_consistency (db : Database) (w : Workloader) (ctx : Context)
    (wh : Int)
    (hq : (w.getState ctx).Conn.QueryContext ctx query5 [wh]
      = Except.ok ⟨[Except.ok (Float64.ofNat (query5Count db wh))], none⟩) :
    (∀ o ∈ db.orders,
      ((∃ r ∈ query5Rows db wh, r.1 = o) ↔
        o.o_w_id = wh ∧ xor o.o_carrier_id.isSome (hasNewOrder db o) = false)) ∧
    (checkCondition5 w ctx wh = none ↔
      ∀ o ∈ db.orders, o.o_w_id = wh →
        xor o.o_carrier_id.isSome (hasNewOrder db o) = true) ∧
    (∀ o ∈ db.orders, o.o_w_id = wh → o.o_carrier_id.isSome = true →
      hasNewOrder db o = true →
      checkCondition5 w ctx wh
        = some (violation5 w wh (Float64.ofNat (query5Count db wh)))) := by
  have hrun : checkCondition5 w ctx wh
      = if query5Count db wh = 0 then none
        else some (violation5 w wh (Float64.ofNat (query5Count db wh))) :=
    runCheck_count w ctx query5 [wh] (violation5 w wh) _ hq
  refine ⟨fun o ho => query5_counts_order db wh o ho, ?_, ?_⟩
  · rw [hrun, ← query5Count_eq_zero]
    by_cases h0 : query5Count db wh = 0 <;> simp [h0]
  · intro o ho hw hc hn
    have hne : query5Count db wh ≠ 0 := by
      intro h0
      have := (query5Count_eq_zero db wh).mp h0 o ho hw
      rw [hc, hn] at this
      exact Bool.noConfusion this
    rw [hrun, if_neg hne]

set_option maxRecDepth 100000 in
/-- Instance of C8: a delivered order whose new-order row is still present
makes check 5 fail; so does an undelivered order whose only new-order row
belongs to another district. -/
theorem check5_delivery_consistency_witness :
    ((dbWorkloader staleNewOrderDb).getState liveContext).Conn.QueryContext liveContext
        query5 [1]
      = Except.ok ⟨[Except.ok (Float64.ofNat (query5Count staleNewOrderDb 1))], none⟩ ∧
    (checkCondition5 (dbWorkloader staleNewOrderDb) liveContext 1 = none ↔
      ∀ o ∈ staleNewOrderDb.orders, o.o_w_id = 1 →
        xor o.o_carrier_id.isSome (hasNewOrder staleNewOrderDb o) = true) ∧
    checkCondition5 (dbWorkloader staleNewOrderDb) liveContext 1 ≠ none ∧
    (∀ o ∈ strayNewOrderDb.orders,
      o.o_carrier_id.isSome = false ∧ hasNewOrder strayNewOrderDb o = false) ∧
    checkCondition5 (dbWorkloader strayNewOrderDb) liveContext 1 ≠ none :=
  ⟨by rfl,
    (check5_delivery_consistency staleNewOrderDb (dbWorkloader staleNewOrderDb) liveContext 1
      (by rfl)).2.1,
    by decide, by decide, by decide⟩

set_option maxRecDepth 100000 in
/-- C9, evaluation at the failing input: in warehouse 1 the only order declares
5 order lines and no order-line row exists for it, yet check 4 and check 6
both pass (their inner joins drop an order, or a district, without order
lines).  With 4 order-line rows present for the same order both checks
fail. -/
theorem orphan_order_passes_checks_4_and_6 :
    (∃ o ∈ orphanOrderDb.orders, o.o_w_id = 1 ∧ o.o_ol_cnt = 5 ∧
      orderLineCount orphanOrderDb o = 0) ∧
    checkCondition4 (dbWorkloader orphanOrderDb) liveContext 1 = none ∧
    checkCondition6 (dbWorkloader orphanOrderDb) liveContext 1 = none ∧
    (∃ o ∈ shortOrderDb.orders, o.o_w_id = 1 ∧ o.o_ol_cnt = 5 ∧
      orderLineCount shortOrderDb o = 4) ∧
    checkCondition4 (dbWorkloader shortOrderDb) liveContext 1 ≠ none ∧
    checkCondition6 (dbWorkloader shortOrderDb) liveContext 1 ≠ none := by
  decide

/-- C10. Check 2 encoding: for all integers `d_next_o_id`, `mo`, `mno` the
value `(d_next_o_id - 1 - mo)^2 + (d_next_o_id - 1 - mno)^2` is 0 if and only
if `d_next_o_id - 1 = mo` and `d_next_o_id - 1 = mno`; hence a row whose
scanned `float64` denotes that value passes the test `diff != 0` exactly then,
and check 2 over such rows passes if and only if every returned district row
has `d_next_o_id - 1` equal to both maxima. -/
theorem check2_encoding (d_next_o_id mo mno : Int) :
    (query2Diff d_next_o_id mo mno = 0 ↔ d_next_o_id - 1 = mo ∧ d_next_o_id - 1 = mno) ∧
    (∀ v : Float64, v.toRat? = some ((query2Diff d_next_o_id mo mno : Int) : ℚ) →
      (Float64.ne v Float64.zero = false ↔
        d_next_o_id - 1 = mo ∧ d_next_o_id - 1 = mno)) ∧
    (∀ (w : Workloader) (ctx : Context) (wh : Int) (pre post : List Float64) (v : Float64),
      (∀ x ∈ pre ++ post, x.toRat? = some 0) →
      v.toRat? = some ((query2Diff d_next_o_id mo mno : Int) : ℚ) →
      (w.getState ctx).Conn.QueryContext ctx query2 [wh, wh, wh]
        = Except.ok ⟨(pre ++ v :: post).map Except.ok, none⟩ →
      (checkCondition2 w ctx wh = none ↔
        d_next_o_id - 1 = mo ∧ d_next_o_id - 1 = mno)) := by
  have hint : query2Diff d_next_o_id mo mno = 0 ↔
      d_next_o_id - 1 = mo ∧ d_next_o_id - 1 = mno := by
    unfold query2Diff
    constructor
    · intro h
      have h1 : 0 ≤ (d_next_o_id - 1 - mo) ^ 2 := sq_nonneg _
      have h2 : 0 ≤ (d_next_o_id - 1 - mno) ^ 2 := sq_nonneg _
      have h3 : (d_next_o_id - 1 - mo) ^ 2 = 0 := by omega
      have h4 : (d_next_o_id - 1 - mno) ^ 2 = 0 := by omega
      have h5 := pow_eq_zero_iff (two_ne_zero) |>.mp h3
      have h6 := pow_eq_zero_iff (two_ne_zero) |>.mp h4
      constructor <;> omega
    · rintro ⟨h1, h2⟩
      rw [← h1, ← h2]
      simp
  have hrow : ∀ v : Float64, v.toRat? = some ((query2Diff d_next_o_id mo mno : Int) : ℚ) →
      (Float64.ne v Float64.zero = false ↔
        d_next_o_id - 1 = mo ∧ d_next_o_id - 1 = mno) := by
    intro v hv
    rw [← hint, Bool.eq_false_iff, Ne, Float64.ne_zero_iff, not_not, hv]
    simp only [Option.some.injEq]
    exact_mod_cast Iff.rfl
  refine ⟨hint, hrow, ?_⟩
  intro w ctx wh pre post v hzero hv hq
  have hrun : checkCondition2 w ctx wh
      = ((pre ++ v :: post).find? (fun v => decide (v.toRat? ≠ some 0))).map
          (violation2 w wh) :=
    runCheck_rows w ctx query2 [wh, wh, wh] (violation2 w wh) _ hq
  rw [hrun, Option.map_eq_none', List.find?_eq_none, ← hrow v hv, Bool.eq_false_iff, Ne,
    Float64.ne_zero_iff, not_not]
  constructor
  · intro h
    have := h v (by simp)
    simpa using this
  · intro h x hx
    rw [List.mem_append, List.mem_cons] at hx
    rcases hx with hx | rfl | hx
    · simp [hzero x (List.mem_append_left _ hx)]
    · simp [h]
    · simp [hzero x (List.mem_append_right _ hx)]

end Tpcc
